import Mathlib

/-!
A verification development for the better-auth Mercado Pago plugin.

The TypeScript sources are shallowly embedded as executable Lean
definitions:

* strings are modelled as `List Char` (`LC`); JavaScript string helpers
  (`split`, `startsWith`, indexing) are modelled by structurally
  recursive list functions;
* JavaScript numbers that carry money amounts are modelled as `Rat`
  with exact arithmetic;
* `Date.now()` is modelled by an explicit `now : Nat` argument
  (milliseconds);
* `node:crypto` HMAC-SHA256 is implemented in full (`sha256Bytes`,
  `hmacSha256`) so that the signature verifier is executable;
* fallible operations return `Except`: a `.error` models a thrown
  JavaScript exception.

The repository ships two variants of the plugin module: the file
`src/server.ts` (structures `…S`, functions `…ServerTs`) and an
unnamed alternative module (here called the external-reference
variant: structures `…X`, functions `…ExtRef`) that correlates
webhooks through a locally generated `externalReference`.  Both are
embedded below together with the shared `security.ts` helpers.
-/

set_option maxRecDepth 10000

/-- JavaScript strings, modelled as lists of characters. -/
abbrev LC := List Char

/-- Conversion from Lean string literals, used to write embedded constants. -/
def lc (s : String) : LC := s.toList

/-- JavaScript `String.prototype.split` with a one-character separator.
`splitC sep s` never returns `[]` and keeps empty segments, matching JS. -/
def splitC (sep : Char) : LC → List LC
  | [] => [[]]
  | c :: rest =>
    if c = sep then [] :: splitC sep rest
    else
      match splitC sep rest with
      | [] => [[c]]
      | r :: rs => (c :: r) :: rs

/-- JavaScript `String.prototype.startsWith`. -/
def lcStartsWith (s pre : LC) : Bool := pre.isPrefixOf s

/-- JavaScript `String.prototype.endsWith`. -/
def lcEndsWith (s suf : LC) : Bool := suf.isSuffixOf s

/-- Number of bytes of the UTF-8 encoding of one character
(`Buffer.byteLength` semantics for well-formed strings). -/
def utf8CharLen (c : Char) : Nat :=
  if c.toNat < 128 then 1
  else if c.toNat < 2048 then 2
  else if c.toNat < 65536 then 3
  else 4

/-- Byte length of `Buffer.from(s)` for a JS string `s`. -/
def utf8Len (s : LC) : Nat := (s.map utf8CharLen).sum

/-- The UTF-8 bytes of one character. -/
def utf8Char (c : Char) : List Nat :=
  let n := c.toNat
  if n < 128 then [n]
  else if n < 2048 then [192 ||| (n >>> 6), 128 ||| (n &&& 63)]
  else if n < 65536 then
    [224 ||| (n >>> 12), 128 ||| ((n >>> 6) &&& 63), 128 ||| (n &&& 63)]
  else
    [240 ||| (n >>> 18), 128 ||| ((n >>> 12) &&& 63),
     128 ||| ((n >>> 6) &&& 63), 128 ||| (n &&& 63)]

/-- UTF-8 encoding of a JS string (the contents of `Buffer.from(s)`). -/
def utf8Encode (s : LC) : List Nat := s.flatMap utf8Char

/-! ## SHA-256 and HMAC-SHA256 (node:crypto)

Word values are `Nat`s reduced modulo `2 ^ 32` explicitly.  All
recursions are structural (fuel-based where needed) so that the kernel
can evaluate concrete digests inside `decide` / `rfl` proofs. -/

/-- Truncation to a 32-bit word. -/
def w32 (n : Nat) : Nat := n % 4294967296

/-- 32-bit right rotation. -/
def rotr32 (n x : Nat) : Nat := w32 ((x >>> n) ||| (x <<< (32 - n)))

/-- The SHA-256 round constants. -/
def sha256K : List Nat :=
  [1116352408, 1899447441, 3049323471, 3921009573, 961987163,
   1508970993, 2453635748, 2870763221, 3624381080, 310598401,
   607225278, 1426881987, 1925078388, 2162078206, 2614888103,
   3248222580, 3835390401, 4022224774, 264347078, 604807628,
   770255983, 1249150122, 1555081692, 1996064986, 2554220882,
   2821834349, 2952996808, 3210313671, 3336571891, 3584528711,
   113926993, 338241895, 666307205, 773529912, 1294757372,
   1396182291, 1695183700, 1986661051, 2177026350, 2456956037,
   2730485921, 2820302411, 3259730800, 3345764771, 3516065817,
   3600352804, 4094571909, 275423344, 430227734, 506948616,
   659060556, 883997877, 958139571, 1322822218, 1537002063,
   1747873779, 1955562222, 2024104815, 2227730452, 2361852424,
   2428436474, 2756734187, 3204031479, 3329325298]

/-- The SHA-256 working state: eight 32-bit words. -/
structure Sha256St where
  a : Nat
  b : Nat
  c : Nat
  d : Nat
  e : Nat
  f : Nat
  g : Nat
  h : Nat

/-- The SHA-256 initial hash value. -/
def sha256Init : Sha256St :=
  ⟨1779033703, 3144134277, 1013904242, 2773480762,
   1359893119, 2600822924, 528734635, 1541459225⟩

/-- Big-endian serialisation of `n` into `k` bytes. -/
def beBytes : Nat → Nat → List Nat
  | 0, _ => []
  | k + 1, n => beBytes k (n / 256) ++ [n % 256]

/-- Group a byte list into big-endian 32-bit words (4 bytes per word). -/
def bytesToWords : List Nat → List Nat
  | b1 :: b2 :: b3 :: b4 :: rest =>
      (b1 <<< 24 ||| b2 <<< 16 ||| b3 <<< 8 ||| b4) :: bytesToWords rest
  | _ => []

/-- One extension step of the SHA-256 message schedule: append word
`i = w.length` computed from words `i-2`, `i-7`, `i-15`, `i-16`. -/
def scheduleNext (w : List Nat) : Nat :=
  let t (j : Nat) : Nat := w.getD (w.length - j) 0
  let s0 := (rotr32 7 (t 15)) ^^^ (rotr32 18 (t 15)) ^^^ ((t 15) >>> 3)
  let s1 := (rotr32 17 (t 2)) ^^^ (rotr32 19 (t 2)) ^^^ ((t 2) >>> 10)
  w32 ((t 16) + s0 + (t 7) + s1)

/-- Extend the 16 block words to the full 64-word schedule. -/
def extendSchedule : Nat → List Nat → List Nat
  | 0, w => w
  | k + 1, w => extendSchedule k (w ++ [scheduleNext w])

/-- One SHA-256 compression round. -/
def sha256Round (st : Sha256St) (k w : Nat) : Sha256St :=
  let s1 := (rotr32 6 st.e) ^^^ (rotr32 11 st.e) ^^^ (rotr32 25 st.e)
  let ch := (st.e &&& st.f) ^^^ ((st.e ^^^ 4294967295) &&& st.g)
  let temp1 := w32 (st.h + s1 + ch + k + w)
  let s0 := (rotr32 2 st.a) ^^^ (rotr32 13 st.a) ^^^ (rotr32 22 st.a)
  let maj := (st.a &&& st.b) ^^^ (st.a &&& st.c) ^^^ (st.b &&& st.c)
  let temp2 := w32 (s0 + maj)
  ⟨w32 (temp1 + temp2), st.a, st.b, st.c, w32 (st.d + temp1), st.e, st.f, st.g⟩

/-- Compress one 64-byte block into the running state. -/
def sha256Compress (st : Sha256St) (block : List Nat) : Sha256St :=
  let w := extendSchedule 48 (bytesToWords block)
  let r := (sha256K.zip w).foldl (fun s kw => sha256Round s kw.1 kw.2) st
  ⟨w32 (st.a + r.a), w32 (st.b + r.b), w32 (st.c + r.c), w32 (st.d + r.d),
   w32 (st.e + r.e), w32 (st.f + r.f), w32 (st.g + r.g), w32 (st.h + r.h)⟩

/-- Process a padded message 64 bytes at a time (fuel-based recursion,
called with fuel at least the message length). -/
def sha256Blocks : Nat → Sha256St → List Nat → Sha256St
  | 0, st, _ => st
  | _ + 1, st, [] => st
  | fuel + 1, st, m => sha256Blocks fuel (sha256Compress st (m.take 64)) (m.drop 64)

/-- SHA-256 padding: `0x80`, zeros to 56 mod 64, then the 64-bit
big-endian bit length. -/
def sha256Pad (m : List Nat) : List Nat :=
  m ++ [128] ++ List.replicate ((64 - ((m.length + 9) % 64)) % 64) 0
    ++ beBytes 8 (8 * m.length)

/-- The SHA-256 digest state of a byte message. -/
def sha256 (m : List Nat) : Sha256St :=
  let p := sha256Pad m
  sha256Blocks p.length sha256Init p

/-- The 32 digest bytes of a SHA-256 state. -/
def sha256Digest (st : Sha256St) : List Nat :=
  beBytes 4 st.a ++ beBytes 4 st.b ++ beBytes 4 st.c ++ beBytes 4 st.d ++
  beBytes 4 st.e ++ beBytes 4 st.f ++ beBytes 4 st.g ++ beBytes 4 st.h

/-- SHA-256 of a byte message, as bytes. -/
def sha256Bytes (m : List Nat) : List Nat := sha256Digest (sha256 m)

/-- HMAC-SHA256 (`crypto.createHmac("sha256", key)`), block size 64. -/
def hmacSha256 (key msg : List Nat) : List Nat :=
  let k0 := if 64 < key.length then sha256Bytes key else key
  let kp := k0 ++ List.replicate (64 - k0.length) 0
  let ipad := kp.map (fun b => b ^^^ 54)
  let opad := kp.map (fun b => b ^^^ 92)
  sha256Bytes (opad ++ sha256Bytes (ipad ++ msg))

/-- The sixteen lowercase hex digits. -/
def hexChars : LC := lc "0123456789abcdef"

/-- The hex digit of `n % 16`. -/
def hexDigit (n : Nat) : Char := hexChars.get ⟨n % 16, Nat.mod_lt n (by decide)⟩

/-- Lowercase hex rendering of a byte list (`hmac.digest("hex")`). -/
def bytesHex (bs : List Nat) : LC := bs.flatMap (fun b => [hexDigit (b / 16), hexDigit b])

/-- `crypto.createHmac("sha256", secret).update(msg).digest("hex")` on JS
strings: both inputs are UTF-8 encoded. -/
def hmacSha256Hex (secret msg : LC) : LC :=
  bytesHex (hmacSha256 (utf8Encode secret) (utf8Encode msg))

instance {e a : Type} [DecidableEq e] [DecidableEq a] : DecidableEq (Except e a) := fun x y =>
  match x, y with
  | .ok u, .ok v =>
    if h : u = v then .isTrue (by rw [h]) else .isFalse (by intro hc; cases hc; exact h rfl)
  | .error u, .error v =>
    if h : u = v then .isTrue (by rw [h]) else .isFalse (by intro hc; cases hc; exact h rfl)
  | .ok _, .error _ => .isFalse (by intro hc; cases hc)
  | .error _, .ok _ => .isFalse (by intro hc; cases hc)

/-! ## security.ts: `verifyWebhookSignature` -/

/-- A thrown JavaScript exception that is not an `APIError` (here only the
`RangeError` raised by `crypto.timingSafeEqual` on buffers of different
byte lengths). -/
inductive JsErr where
  | rangeError
deriving DecidableEq

/-- `crypto.timingSafeEqual(Buffer.from(a), Buffer.from(b))`: throws a
`RangeError` when the byte lengths differ, otherwise compares the byte
contents (UTF-8 is injective, so byte equality is string equality). -/
def timingSafeEqual (a b : LC) : Except JsErr Bool :=
  if utf8Len a ≠ utf8Len b then .error .rangeError
  else .ok (a == b)

/-- The manifest string `id:{dataId};request-id:{requestId};ts:{ts};`
built by `verifyWebhookSignature`. -/
def webhookManifest (dataId requestId ts : LC) : LC :=
  lc "id:" ++ dataId ++ lc ";request-id:" ++ requestId ++ lc ";ts:" ++ ts ++ lc ";"

/-- `parts.find((p) => p.startsWith(pre))?.split("=")[1]` for one
component of the `x-signature` header. -/
def sigComponent (parts : List LC) (pre : LC) : Option LC :=
  (parts.find? (fun p => lcStartsWith p pre)).bind fun p => (splitC '=' p).get? 1

/-- `verifyWebhookSignature` from security.ts.  `xSignature` and
`xRequestId` are `string | null`; a `.error` result models a thrown
exception (JS falsiness of strings means empty strings count as
missing). -/
def verifyWebhookSignature (xSignature xRequestId : Option LC)
    (dataId secret : LC) : Except JsErr Bool :=
  match xSignature, xRequestId with
  | some xs, some xr =>
    if xs = [] ∨ xr = [] then .ok false
    else
      let parts := splitC ',' xs
      match sigComponent parts (lc "ts="), sigComponent parts (lc "v1=") with
      | some ts, some hash =>
        if ts = [] ∨ hash = [] then .ok false
        else
          let manifest := webhookManifest dataId xr ts
          let expectedHash := hmacSha256Hex secret manifest
          timingSafeEqual hash expectedHash
      | _, _ => .ok false
  | _, _ => .ok false

/-! ## Association lists

The `Map`s used by the in-memory `RateLimiter` and `IdempotencyStore`
are modelled as association lists with unique keys. -/

/-- `map.get(k)`. -/
def alFind {α : Type} (l : List (LC × α)) (k : LC) : Option α :=
  match l with
  | [] => none
  | (k2, v2) :: rest => if k2 == k then some v2 else alFind rest k

/-- `map.set(k, v)`: replace in place, or append a new entry. -/
def alSet {α : Type} (l : List (LC × α)) (k : LC) (v : α) : List (LC × α) :=
  match l with
  | [] => [(k, v)]
  | (k2, v2) :: rest => if k2 == k then (k, v) :: rest else (k2, v2) :: alSet rest k v

/-- `map.delete(k)`. -/
def alErase {α : Type} (l : List (LC × α)) (k : LC) : List (LC × α) :=
  match l with
  | [] => []
  | (k2, v2) :: rest => if k2 == k then rest else (k2, v2) :: alErase rest k

/-! ## security.ts: `RateLimiter` -/

/-- The `RateLimiter.attempts` map: key to `(count, resetAt)`. -/
abbrev RateLimiterMap := List (LC × (Nat × Nat))

/-- `RateLimiter.check(key, maxAttempts, windowMs)` from security.ts,
with `Date.now()` passed explicitly; returns the verdict and the
updated internal map. -/
def RateLimiter.check (attempts : RateLimiterMap) (key : LC)
    (maxAttempts windowMs now : Nat) : Bool × RateLimiterMap :=
  match alFind attempts key with
  | none => (true, alSet attempts key (1, now + windowMs))
  | some (count, resetAt) =>
    if resetAt < now then (true, alSet attempts key (1, now + windowMs))
    else if maxAttempts ≤ count then (false, attempts)
    else (true, alSet attempts key (count + 1, resetAt))

/-! ## security.ts: `IdempotencyStore` -/

/-- The `IdempotencyStore.store` map: key to `(result, expiresAt)`. -/
abbrev IdemStore (α : Type) := List (LC × (α × Nat))

/-- `IdempotencyStore.get(key)`: expired entries are deleted lazily and
read as absent (the source also calls `delete` on a missing key, a
no-op). -/
def IdempotencyStore.get {α : Type} (store : IdemStore α) (key : LC) (now : Nat) :
    Option α × IdemStore α :=
  match alFind store key with
  | none => (none, alErase store key)
  | some (result, expiresAt) =>
    if expiresAt < now then (none, alErase store key)
    else (some result, store)

/-- `IdempotencyStore.set(key, result, ttlMs)`. -/
def IdempotencyStore.set {α : Type} (store : IdemStore α) (key : LC) (result : α)
    (ttlMs now : Nat) : IdemStore α :=
  alSet store key (result, now + ttlMs)

/-! ## security.ts: amount validation -/

/-- `Math.abs` on exact rationals. -/
def ratAbs (q : Rat) : Rat := if q < 0 then -q else q

/-- `validatePaymentAmount(requestedAmount, mpPaymentAmount, tolerance)`
from security.ts; amounts are modelled as exact rationals and the
default tolerance `0.01` is passed explicitly as `1 / 100` at the call
sites. -/
def validatePaymentAmount (requestedAmount mpPaymentAmount tolerance : Rat) : Bool :=
  decide (ratAbs (requestedAmount - mpPaymentAmount) ≤ tolerance)

/-- The default `tolerance` argument `0.01` of `validatePaymentAmount`,
which both webhook handlers use. -/
def amountTolerance : Rat := 1 / 100

/-! ## security.ts: metadata sanitisation

JavaScript JSON-like values.  An `obj` lists its own enumerable entries
in `Object.entries` order. -/

inductive JsValue where
  | str (s : LC)
  | num (q : Rat)
  | bool (b : Bool)
  | null
  | arr (xs : List JsValue)
  | obj (fields : List (LC × JsValue))

/-- The keys removed to prevent prototype pollution. -/
def bannedKey (k : LC) : Bool :=
  k == lc "__proto__" || k == lc "constructor" || k == lc "prototype"

/-- Decimal rendering of a natural number (the string keys produced by
`Object.entries` on an array), fuel-based so the kernel can reduce it. -/
def natToStrAux : Nat → Nat → LC
  | 0, _ => []
  | fuel + 1, n =>
    if n < 10 then [Nat.digitChar n]
    else natToStrAux fuel (n / 10) ++ [Nat.digitChar (n % 10)]

/-- Decimal rendering of a natural number. -/
def natToStr (n : Nat) : LC := natToStrAux (n + 1) n

mutual

/-- `sanitizeMetadata` from security.ts, on the `Object.entries` of the
input object: drops polluting keys, truncates long strings, and
recurses into every `typeof value === "object" && value !== null`
value — which includes arrays, whose entries are index-keyed. -/
def sanitizeMetadata : List (LC × JsValue) → List (LC × JsValue)
  | [] => []
  | (k, v) :: rest =>
    if bannedKey k then sanitizeMetadata rest
    else (k, sanitizeValue v) :: sanitizeMetadata rest

/-- The transform `sanitizeMetadata` applies to one entry value. -/
def sanitizeValue : JsValue → JsValue
  | .str s => if 5000 < s.length then .str (s.take 5000) else .str s
  | .obj fields => .obj (sanitizeMetadata fields)
  | .arr xs => .obj (sanitizeArrayEntries 0 xs)
  | v => v

/-- The recursive call `sanitizeMetadata(array)`: `Object.entries` of an
array yields decimal index keys, so the result is a plain object. -/
def sanitizeArrayEntries : Nat → List JsValue → List (LC × JsValue)
  | _, [] => []
  | i, x :: rest =>
    if bannedKey (natToStr i) then sanitizeArrayEntries (i + 1) rest
    else (natToStr i, sanitizeValue x) :: sanitizeArrayEntries (i + 1) rest

end

/-! ## security.ts: remaining validators -/

/-- `secureCompare` from security.ts: unlike `verifyWebhookSignature` it
guards the lengths and catches the `RangeError`. -/
def secureCompare (a b : LC) : Bool :=
  if a.length ≠ b.length then false
  else match timingSafeEqual a b with
       | .ok r => r
       | .error _ => false

/-- Case-insensitive hex digit (the `/i` flag of the UUID regex). -/
def isHexDigitCI (c : Char) : Bool :=
  ('0' ≤ c && c ≤ '9') || ('a' ≤ c && c ≤ 'f') || ('A' ≤ c && c ≤ 'F')

/-- Characters allowed by the custom idempotency-key pattern. -/
def isUrlSafeChar (c : Char) : Bool :=
  ('a' ≤ c && c ≤ 'z') || ('A' ≤ c && c ≤ 'Z') || ('0' ≤ c && c ≤ '9') ||
  c = '_' || c = '-'

/-- The UUID-v4 regex of `validateIdempotencyKey`. -/
def uuidV4Test (k : LC) : Bool :=
  match splitC '-' k with
  | [a, b, c, d, e] =>
    a.length == 8 && b.length == 4 && c.length == 4 && d.length == 4 &&
    e.length == 12 && a.all isHexDigitCI && b.all isHexDigitCI &&
    c.all isHexDigitCI && d.all isHexDigitCI && e.all isHexDigitCI &&
    (match c, d with
     | c0 :: _, d0 :: _ =>
       c0 = '4' && (d0 = '8' || d0 = '9' || d0 = 'a' || d0 = 'b' || d0 = 'A' || d0 = 'B')
     | _, _ => false)
  | _ => false

/-- `validateIdempotencyKey` from security.ts. -/
def validateIdempotencyKey (k : LC) : Bool :=
  uuidV4Test k || (8 ≤ k.length && k.length ≤ 64 && k.all isUrlSafeChar)

/-- The result of `new URL(url)`; parsing is platform glue, passed in as
an oracle (`none` models a thrown parse error). -/
structure UrlParts where
  protocol : LC
  hostname : LC
deriving DecidableEq

/-- `validateCallbackUrl` from security.ts. -/
def validateCallbackUrl (parseUrl : LC → Option UrlParts) (production : Bool)
    (url : LC) (allowedDomains : List LC) : Bool :=
  match parseUrl url with
  | none => false
  | some p =>
    if production && p.protocol ≠ lc "https:" then false
    else allowedDomains.any (fun domain =>
      if lcStartsWith domain (lc "*.") then lcEndsWith p.hostname (domain.drop 2)
      else p.hostname == domain)

/-- `ValidationRules.amount` from security.ts (`NaN` has no rational
counterpart, so the `Number.isNaN` guard is vacuous here). -/
def ValidationRules.amount (a : Rat) : Bool :=
  decide (0 < a) && decide (a ≤ 999999999)

/-- The currency allow-list of `ValidationRules.currency`. -/
def validCurrencies : List LC :=
  [lc "ARS", lc "BRL", lc "CLP", lc "MXN", lc "COP", lc "PEN", lc "UYU"]

/-- `ValidationRules.currency` from security.ts. -/
def ValidationRules.currency (c : LC) : Bool := validCurrencies.contains c

/-- `VALID_WEBHOOK_TOPICS` from security.ts. -/
def VALID_WEBHOOK_TOPICS : List LC :=
  [lc "payment", lc "merchant_order", lc "subscription_preapproval",
   lc "subscription_preapproval_plan", lc "subscription_authorized_payment",
   lc "point_integration_wh", lc "topic_claims_integration_wh",
   lc "topic_merchant_order_wh", lc "delivery_cancellation"]

/-- `isValidWebhookTopic` from security.ts. -/
def isValidWebhookTopic (topic : LC) : Bool := VALID_WEBHOOK_TOPICS.contains topic

/-! ## security.ts: error translation -/

/-- The dynamic error value handled by `handleMercadoPagoError`
(`status` 0 or absent is falsy). -/
structure MPRawError where
  status : Option Nat
  code : Option LC
  message : Option LC
deriving DecidableEq

/-- The `errorMap` of `MercadoPagoError.toAPIError`. -/
def mercadoPagoErrorMap (statusCode : Nat) : Option LC :=
  if statusCode = 400 then some (lc "BAD_REQUEST")
  else if statusCode = 401 then some (lc "UNAUTHORIZED")
  else if statusCode = 403 then some (lc "FORBIDDEN")
  else if statusCode = 404 then some (lc "NOT_FOUND")
  else if statusCode = 429 then some (lc "TOO_MANY_REQUESTS")
  else if statusCode = 500 then some (lc "INTERNAL_SERVER_ERROR")
  else none

/-- `handleMercadoPagoError` from security.ts: it always throws an
`APIError`; the returned value is the `APIError` status name of the
thrown error (`errorMap[status] || "BAD_REQUEST"` when `error.status`
is truthy, `INTERNAL_SERVER_ERROR` otherwise). -/
def handleMercadoPagoError (e : MPRawError) : LC :=
  match e.status with
  | some s => if s ≠ 0 then (mercadoPagoErrorMap s).getD (lc "BAD_REQUEST")
              else lc "INTERNAL_SERVER_ERROR"
  | none => lc "INTERNAL_SERVER_ERROR"

/-! ## Data model (plugin schema records and provider response shapes) -/

/-- The provider response fetched by `paymentClient.get`
(`MercadoPagoPaymentResponse`).  An optional string field that is
present but empty is JS-falsy, which the handlers test with `||` and
truthiness checks. -/
structure MPPaymentResponse where
  status : LC
  status_detail : Option LC
  transaction_amount : Option Rat
  payment_method_id : Option LC
  payment_type_id : Option LC
  external_reference : Option LC

/-- The provider response fetched by `preApprovalClient.get`
(`MercadoPagoPreApprovalResponse`); date strings and the `summarized`
snapshot are kept opaque. -/
structure MPPreApprovalResponse where
  status : LC
  reason : Option LC
  next_payment_date : Option LC
  last_modified : Option LC
  summarized : Option LC

/-- A `mercadoPagoPayment` row of the server.ts schema (no
`externalReference` field; `metadata` is stored JSON-stringified, kept
structured here since stringification is injective glue). -/
structure PaymentRecordS where
  id : LC
  userId : LC
  mercadoPagoPaymentId : LC
  preferenceId : LC
  status : LC
  statusDetail : Option LC
  amount : Rat
  currency : LC
  paymentMethodId : Option LC
  paymentTypeId : Option LC
  metadata : JsValue
  createdAt : Nat
  updatedAt : Nat

/-- A `mercadoPagoSubscription` row of the server.ts schema. -/
structure SubscriptionRecordS where
  id : LC
  userId : LC
  mercadoPagoSubscriptionId : LC
  planId : LC
  status : LC
  reason : Option LC
  nextPaymentDate : Option LC
  lastPaymentDate : Option LC
  summarized : Option LC
  metadata : JsValue
  createdAt : Nat
  updatedAt : Nat

/-- A `mercadoPagoPayment` row of the external-reference variant schema:
`externalReference` is required and unique, `mercadoPagoPaymentId` is
optional until backfilled by a webhook. -/
structure PaymentRecordX where
  id : LC
  externalReference : LC
  userId : LC
  mercadoPagoPaymentId : Option LC
  preferenceId : LC
  status : LC
  statusDetail : Option LC
  amount : Rat
  currency : LC
  paymentMethodId : Option LC
  paymentTypeId : Option LC
  metadata : JsValue
  createdAt : Nat
  updatedAt : Nat

/-! ## Webhook handler, server.ts variant -/

/-- The plugin options consulted by the webhook handler.  User callbacks
are injected capabilities; the model records whether each is configured
and whether its invocation throws. -/
structure WebhookOptions where
  webhookSecret : Option LC
  onPaymentUpdate : Bool
  onPaymentUpdateThrows : Bool
  onSubscriptionUpdate : Bool
  onSubscriptionUpdateThrows : Bool
  onSubscriptionPayment : Bool
  onSubscriptionPaymentThrows : Bool

/-- The inbound HTTP request data read by the handler. -/
structure WebhookRequest where
  present : Bool
  xSignature : Option LC
  xRequestId : Option LC

/-- The parsed notification body `{ type, data: { id } }`; `dataId` is
`none` when `data` or `data.id` is missing, and `parseOk = false`
models a body whose parse throws. -/
structure WebhookBody where
  parseOk : Bool
  type : Option LC
  dataId : Option LC

/-- The provider API consumed during reconciliation: authoritative
fetches by id; `.error` models a thrown fetch failure. -/
structure MPWorld where
  getPayment : LC → Except Unit MPPaymentResponse
  getPreApproval : LC → Except Unit MPPreApprovalResponse

/-- The mutable state the server.ts webhook handler touches. -/
structure WebhookStateS where
  rl : RateLimiterMap
  idem : IdemStore Bool
  payments : List PaymentRecordS
  subscriptions : List SubscriptionRecordS

/-- Counts of adapter updates and user-callback invocations performed
by one webhook delivery. -/
structure WebhookEffects where
  paymentUpdates : Nat
  subscriptionUpdates : Nat
  paymentCallbacks : Nat
  subscriptionCallbacks : Nat
  subscriptionPaymentCallbacks : Nat
deriving DecidableEq

/-- No effects. -/
def WebhookEffects.zero : WebhookEffects := ⟨0, 0, 0, 0, 0⟩

/-- Pointwise sum of effect counters. -/
def WebhookEffects.add (x y : WebhookEffects) : WebhookEffects :=
  ⟨x.paymentUpdates + y.paymentUpdates,
   x.subscriptionUpdates + y.subscriptionUpdates,
   x.paymentCallbacks + y.paymentCallbacks,
   x.subscriptionCallbacks + y.subscriptionCallbacks,
   x.subscriptionPaymentCallbacks + y.subscriptionPaymentCallbacks⟩

/-- The observable outcome of a webhook delivery: the JSON
acknowledgment, a thrown `APIError` with the given status name, or a
non-`APIError` exception escaping the handler. -/
inductive WebhookResult where
  | received
  | apiError (code : LC)
  | thrown (e : JsErr)
deriving DecidableEq

/-- `x || undefined` on an optional string field. -/
def jsOrUndefined (o : Option LC) : Option LC :=
  match o with
  | some s => if s = [] then none else some s
  | none => none

/-- The `adapter.update` applied to a correlated payment record by the
server.ts webhook handler. -/
def applyPaymentUpdateS (q : PaymentRecordS) (mp : MPPaymentResponse) (now : Nat) :
    PaymentRecordS :=
  { q with
    status := mp.status
    statusDetail := jsOrUndefined mp.status_detail
    paymentMethodId := jsOrUndefined mp.payment_method_id
    paymentTypeId := jsOrUndefined mp.payment_type_id
    updatedAt := now }

/-- The `adapter.update` applied to a correlated subscription record. -/
def applySubscriptionUpdateS (q : SubscriptionRecordS) (mp : MPPreApprovalResponse)
    (now : Nat) : SubscriptionRecordS :=
  { q with
    status := mp.status
    reason := jsOrUndefined mp.reason
    nextPaymentDate := jsOrUndefined mp.next_payment_date
    lastPaymentDate := jsOrUndefined mp.last_modified
    summarized := jsOrUndefined mp.summarized
    updatedAt := now }

/-- Outcome of the signature-verification step. -/
inductive SigOutcome where
  | pass
  | badRequest
  | unauthorized
  | raised (e : JsErr)
deriving DecidableEq

/-- The signature step of the server.ts handler: skipped without a
configured secret; rechecks `data.id` truthiness; a raised exception
from the verifier escapes the handler. -/
def webhookSigCheckS (opts : WebhookOptions) (req : WebhookRequest) (did : LC) :
    SigOutcome :=
  match opts.webhookSecret with
  | none => .pass
  | some secret =>
    if did = [] then .badRequest
    else
      match verifyWebhookSignature req.xSignature req.xRequestId did secret with
      | .error e => .raised e
      | .ok false => .unauthorized
      | .ok true => .pass

/-- The server.ts dedup key `webhook:{dataId}:{type}`. -/
def webhookDedupKeyS (did ty : LC) : LC := lc "webhook:" ++ did ++ lc ":" ++ ty

/-- The `payment` branch of the server.ts try block.  `.error` is a
thrown `APIError` (status name); every throw happens before any update
or callback, so a throw leaves state and effects untouched. -/
def webhookStagePaymentS (opts : WebhookOptions) (world : MPWorld) (ty did : LC)
    (now : Nat) (st : WebhookStateS) : Except LC (WebhookStateS × WebhookEffects) :=
  if ty = lc "payment" then
    if did = [] then .error (lc "BAD_REQUEST")
    else
      match world.getPayment did with
      | .error _ => .error (lc "BAD_REQUEST")
      | .ok mp =>
        match st.payments.find? (fun p => p.mercadoPagoPaymentId == did) with
        | none => .ok (st, .zero)
        | some p =>
          if validatePaymentAmount p.amount (mp.transaction_amount.getD 0) amountTolerance = false then
            .error (lc "BAD_REQUEST")
          else
            let ps := st.payments.map (fun q => if q.id == p.id then applyPaymentUpdateS q mp now else q)
            let cb : Nat := if opts.onPaymentUpdate then 1 else 0
            .ok ({ st with payments := ps },
                 { WebhookEffects.zero with paymentUpdates := 1, paymentCallbacks := cb })
  else .ok (st, .zero)

/-- The `subscription_preapproval` / `subscription_preapproval_plan`
branch of the server.ts try block. -/
def webhookStageSubscriptionS (opts : WebhookOptions) (world : MPWorld) (ty did : LC)
    (now : Nat) (st : WebhookStateS) : Except LC (WebhookStateS × WebhookEffects) :=
  if ty = lc "subscription_preapproval" ∨ ty = lc "subscription_preapproval_plan" then
    if did = [] then .error (lc "BAD_REQUEST")
    else
      match world.getPreApproval did with
      | .error _ => .error (lc "BAD_REQUEST")
      | .ok mp =>
        match st.subscriptions.find? (fun s2 => s2.mercadoPagoSubscriptionId == did) with
        | none => .ok (st, .zero)
        | some sub =>
          let ss := st.subscriptions.map (fun q => if q.id == sub.id then applySubscriptionUpdateS q mp now else q)
          let cb : Nat := if opts.onSubscriptionUpdate then 1 else 0
          .ok ({ st with subscriptions := ss },
               { WebhookEffects.zero with subscriptionUpdates := 1, subscriptionCallbacks := cb })
  else .ok (st, .zero)

/-- The authorized recurring-payment branch: correlates via the fetched
`external_reference` (set to the local subscription id at creation);
performs no adapter update, only the callback. -/
def webhookStageAuthorizedS (opts : WebhookOptions) (world : MPWorld) (ty did : LC)
    (st : WebhookStateS) : Except LC (WebhookStateS × WebhookEffects) :=
  if ty = lc "subscription_authorized_payment" ∨ ty = lc "authorized_payment" then
    if did = [] then .error (lc "BAD_REQUEST")
    else
      match world.getPayment did with
      | .error _ => .error (lc "BAD_REQUEST")
      | .ok mp =>
        match mp.external_reference with
        | none => .ok (st, .zero)
        | some ref =>
          if ref = [] then .ok (st, .zero)
          else
            match st.subscriptions.find? (fun s2 => s2.id == ref) with
            | none => .ok (st, .zero)
            | some _ =>
              let cb : Nat := if opts.onSubscriptionPayment then 1 else 0
              .ok (st, { WebhookEffects.zero with subscriptionPaymentCallbacks := cb })
  else .ok (st, .zero)

/-- The body of the server.ts try block: three sequential `if` blocks
over pairwise-disjoint topic sets. -/
def webhookBusinessS (opts : WebhookOptions) (world : MPWorld) (ty did : LC)
    (now : Nat) (st : WebhookStateS) : Except LC (WebhookStateS × WebhookEffects) := do
  let (st1, e1) ← webhookStagePaymentS opts world ty did now st
  let (st2, e2) ← webhookStageSubscriptionS opts world ty did now st1
  let (st3, e3) ← webhookStageAuthorizedS opts world ty did st2
  return (st3, e1.add (e2.add e3))

/-- The webhook endpoint handler of server.ts.  Returns the HTTP
outcome, the final mutable state and the effect counters.  The outer
catch rethrows `APIError`s ("validation errors MP should know about")
and converts any other exception into the success acknowledgment. -/
def webhookServerTs (opts : WebhookOptions) (world : MPWorld) (req : WebhookRequest)
    (body : WebhookBody) (now : Nat) (st : WebhookStateS) :
    WebhookResult × WebhookStateS × WebhookEffects :=
  let rlr := RateLimiter.check st.rl (lc "webhook:global") 1000 60000 now
  let st1 := { st with rl := rlr.2 }
  if rlr.1 = false then (.apiError (lc "TOO_MANY_REQUESTS"), st1, .zero)
  else if body.parseOk = false then (.apiError (lc "BAD_REQUEST"), st1, .zero)
  else
    match body.type, body.dataId with
    | some ty, some did =>
      if isValidWebhookTopic ty = false ∨ did = [] then (.received, st1, .zero)
      else if req.present = false then (.apiError (lc "BAD_REQUEST"), st1, .zero)
      else
        match webhookSigCheckS opts req did with
        | .badRequest => (.apiError (lc "BAD_REQUEST"), st1, .zero)
        | .unauthorized => (.apiError (lc "UNAUTHORIZED"), st1, .zero)
        | .raised e => (.thrown e, st1, .zero)
        | .pass =>
          let key := webhookDedupKeyS did ty
          let g := IdempotencyStore.get st1.idem key now
          let st2 := { st1 with idem := g.2 }
          if (g.1).isSome then (.received, st2, .zero)
          else
            let st3 := { st2 with idem := IdempotencyStore.set st2.idem key true 86400000 now }
            match webhookBusinessS opts world ty did now st3 with
            | .error code => (.apiError code, st3, .zero)
            | .ok (st4, eff) => (.received, st4, eff)
    | _, _ => (.received, st1, .zero)

/-! ## Webhook handler, external-reference variant -/

/-- The options consulted by the external-reference webhook handler. -/
structure WebhookOptionsX where
  webhookSecret : Option LC
  onPaymentUpdate : Bool
  onPaymentUpdateThrows : Bool

/-- Mutable state of the external-reference webhook handler. -/
structure WebhookStateX where
  rl : RateLimiterMap
  idem : IdemStore Bool
  payments : List PaymentRecordX

/-- The signature step of the external-reference handler (no `data.id`
recheck). -/
def webhookSigCheckX (opts : WebhookOptionsX) (req : WebhookRequest) (did : LC) :
    SigOutcome :=
  match opts.webhookSecret with
  | none => .pass
  | some secret =>
    match verifyWebhookSignature req.xSignature req.xRequestId did secret with
    | .error e => .raised e
    | .ok false => .unauthorized
    | .ok true => .pass

/-- The external-reference dedup key `mp:webhook:{type}:{dataId}`. -/
def webhookDedupKeyX (ty did : LC) : LC := lc "mp:webhook:" ++ ty ++ lc ":" ++ did

/-- The update applied to the correlated record: backfills
`mercadoPagoPaymentId` with the fetched payment id. -/
def applyPaymentUpdateX (q : PaymentRecordX) (did : LC) (mp : MPPaymentResponse)
    (now : Nat) : PaymentRecordX :=
  { q with
    mercadoPagoPaymentId := some did
    status := mp.status
    statusDetail := jsOrUndefined mp.status_detail
    paymentMethodId := jsOrUndefined mp.payment_method_id
    paymentTypeId := jsOrUndefined mp.payment_type_id
    updatedAt := now }

/-- The try block of the external-reference webhook handler; its
catch-all converts every throw (fetch failures and the amount-mismatch
`APIError` alike) into the success acknowledgment, so the block itself
is total. -/
def webhookBusinessX (opts : WebhookOptionsX) (world : MPWorld) (did : LC)
    (now : Nat) (st : WebhookStateX) : WebhookStateX × WebhookEffects :=
  match world.getPayment did with
  | .error _ => (st, .zero)
  | .ok mp =>
    match mp.external_reference with
    | none => (st, .zero)
    | some ref =>
      if ref = [] then (st, .zero)
      else
        match st.payments.find? (fun p => p.externalReference == ref) with
        | none => (st, .zero)
        | some p =>
          if validatePaymentAmount p.amount (mp.transaction_amount.getD 0) amountTolerance = false then
            (st, .zero)
          else
            let ps := st.payments.map (fun q => if q.id == p.id then applyPaymentUpdateX q did mp now else q)
            let cb : Nat := if opts.onPaymentUpdate ∧ mp.status ≠ [] then 1 else 0
            ({ st with payments := ps },
             { WebhookEffects.zero with paymentUpdates := 1, paymentCallbacks := cb })

/-- The webhook endpoint handler of the external-reference variant: it
only handles `payment` notifications and acknowledges every business
outcome, including thrown ones, with success. -/
def webhookExtRef (opts : WebhookOptionsX) (world : MPWorld) (req : WebhookRequest)
    (body : WebhookBody) (now : Nat) (st : WebhookStateX) :
    WebhookResult × WebhookStateX × WebhookEffects :=
  let rlr := RateLimiter.check st.rl (lc "webhook:global") 1000 60000 now
  let st1 := { st with rl := rlr.2 }
  if rlr.1 = false then (.apiError (lc "TOO_MANY_REQUESTS"), st1, .zero)
  else if body.parseOk = false then (.apiError (lc "BAD_REQUEST"), st1, .zero)
  else
    match body.type, body.dataId with
    | some ty, some did =>
      if ty ≠ lc "payment" ∨ did = [] then (.received, st1, .zero)
      else if req.present = false then (.apiError (lc "BAD_REQUEST"), st1, .zero)
      else
        match webhookSigCheckX opts req did with
        | .badRequest => (.apiError (lc "BAD_REQUEST"), st1, .zero)
        | .unauthorized => (.apiError (lc "UNAUTHORIZED"), st1, .zero)
        | .raised e => (.thrown e, st1, .zero)
        | .pass =>
          let key := webhookDedupKeyX ty did
          let g := IdempotencyStore.get st1.idem key now
          let st2 := { st1 with idem := g.2 }
          if (g.1).isSome then (.received, st2, .zero)
          else
            let st3 := { st2 with idem := IdempotencyStore.set st2.idem key true 86400000 now }
            let (st4, eff) := webhookBusinessX opts world did now st3
            (.received, st4, eff)
    | _, _ => (.received, st1, .zero)

/-! ## Payment creation, server.ts variant -/

/-- The provider customer returned by `customerClient.create`. -/
structure MPCustomerResp where
  id : LC

/-- A `mercadoPagoCustomer` row. -/
structure CustomerRecord where
  id : LC
  userId : LC
  mercadoPagoId : LC
  email : LC
  createdAt : Nat
  updatedAt : Nat

/-- One mapped item of the provider preference-creation request. -/
structure PreferenceItem where
  id : LC
  title : LC
  quantity : Nat
  unit_price : Rat
  currency_id : LC

/-- The body sent to `preferenceClient.create`.  Fields that one
variant sets and the other omits are `Option`s (`none` means the key is
absent from the JS object). -/
structure PreferenceBody where
  items : List PreferenceItem
  payer_email : Option LC
  back_success : LC
  back_failure : LC
  back_pending : LC
  notification_url : Option LC
  auto_return : Option LC
  external_reference : Option LC
  metadata : List (LC × JsValue)
  expires : Bool
  expiration_date_from : Option Nat
  expiration_date_to : Option Nat
  marketplace : Option LC
  marketplace_fee : Option Rat

/-- The provider response of `preferenceClient.create`. -/
structure MPPreferenceResp where
  id : LC
  init_point : Option LC

/-- One validated input item of the creation endpoint. -/
structure CreateItemInput where
  id : LC
  title : LC
  quantity : Nat
  unitPrice : Rat
  currencyId : LC

/-- The optional marketplace split configuration. -/
structure MarketplaceInput where
  collectorId : LC
  applicationFee : Option Rat
  applicationFeePercentage : Option Rat

/-- The request body of the server.ts creation endpoint. -/
structure CreateBodyS where
  items : List CreateItemInput
  metadata : Option (List (LC × JsValue))
  marketplace : Option MarketplaceInput
  successUrl : Option LC
  failureUrl : Option LC
  pendingUrl : Option LC
  idempotencyKey : Option LC

/-- A `mercadoPagoMarketplaceSplit` row. -/
structure SplitRecord where
  id : LC
  paymentId : LC
  collectorId : LC
  collectorEmail : LC
  applicationFeeAmount : Rat
  applicationFeePercentage : Option Rat
  netAmount : Rat
  metadata : JsValue
  createdAt : Nat

/-- The JSON returned by the server.ts creation endpoint. -/
structure CreateResultS where
  checkoutUrl : Option LC
  preferenceId : LC
  payment : PaymentRecordS

/-- Mutable state of the server.ts creation endpoint. -/
structure CreateStateS where
  rl : RateLimiterMap
  idem : IdemStore CreateResultS
  customers : List CustomerRecord
  payments : List PaymentRecordS
  splits : List SplitRecord

/-- Environment of one creation call: clock, id generation, the
authenticated session, URL parsing (platform glue passed as an oracle)
and the provider API. -/
structure CreateEnvS where
  now : Nat
  genId : Nat → LC
  parseUrl : LC → Option UrlParts
  production : Bool
  baseUrl : LC
  sessionUserId : LC
  sessionEmail : LC
  trustedOrigins : Option (List LC)
  createCustomer : Except MPRawError MPCustomerResp
  createPreference : PreferenceBody → Except MPRawError MPPreferenceResp

/-- Outcome of a creation call: the JSON result, a thrown `APIError`
status name, or a raw (untranslated) provider rejection. -/
inductive CreateRespS where
  | ok (r : CreateResultS)
  | apiError (code : LC)

/-- Counters and captured provider requests of one creation call. -/
structure CreateEffects where
  customerCalls : Nat
  customersCreated : Nat
  paymentsCreated : Nat
  splitsCreated : Nat
  prefCalls : List PreferenceBody

/-- No creation effects. -/
def CreateEffects.zero : CreateEffects := ⟨0, 0, 0, 0, []⟩

/-- `{...obj, k: v}`: override in place or append. -/
def objUpsert (fields : List (LC × JsValue)) (k : LC) (v : JsValue) :
    List (LC × JsValue) :=
  if fields.any (fun e => e.1 == k) then
    fields.map (fun e => if e.1 == k then (k, v) else e)
  else fields ++ [(k, v)]

/-- `items.reduce((sum, item) => sum + item.unitPrice * item.quantity, 0)`. -/
def totalAmountOf (items : List CreateItemInput) : Rat :=
  items.foldl (fun sum it => sum + it.unitPrice * (it.quantity : Rat)) 0

/-- The marketplace fee: a truthy `applicationFee` wins, then a truthy
`applicationFeePercentage`, else `0`. -/
def marketplaceFee (m : MarketplaceInput) (totalAmount : Rat) : Rat :=
  let pct : Rat :=
    match m.applicationFeePercentage with
    | some p => if p ≠ 0 then totalAmount * p / 100 else 0
    | none => 0
  match m.applicationFee with
  | some f => if f ≠ 0 then f else pct
  | none => pct

/-- `items[0]?.currencyId || "ARS"`. -/
def firstCurrency (items : List CreateItemInput) : LC :=
  match items.head? with
  | some it => if it.currencyId ≠ [] then it.currencyId else lc "ARS"
  | none => lc "ARS"

/-- The part of the server.ts creation handler after the idempotency
gate.  `key?` is the validated idempotency key (if any) under which the
result is cached, `nGen` the index of the next `generateId()` result. -/
def createPaymentAfterIdemS (env : CreateEnvS) (body : CreateBodyS)
    (keyQ : Option LC) (st : CreateStateS) :
    CreateRespS × CreateStateS × CreateEffects :=
  let urls := [body.successUrl, body.failureUrl, body.pendingUrl].filterMap id
  let urlsOk :=
    match env.trustedOrigins with
    | some origins => urls.all (fun u => validateCallbackUrl env.parseUrl env.production u origins)
    | none => true
  if urlsOk = false then (.apiError (lc "FORBIDDEN"), st, .zero)
  else if body.items.any (fun it => ValidationRules.currency it.currencyId = false) then
    (.apiError (lc "BAD_REQUEST"), st, .zero)
  else
    let sanitizedMetadata := match body.metadata with
                             | some m => sanitizeMetadata m
                             | none => []
    -- ensure a provider-side customer exists (create-on-first-use)
    let found := st.customers.find? (fun c => c.userId == env.sessionUserId)
    let customerStep : Except LC (CustomerRecord × CreateStateS × CreateEffects × Nat) :=
      match found with
      | some c => .ok (c, st, .zero, 0)
      | none =>
        match env.createCustomer with
        | .error e => .error (handleMercadoPagoError e)
        | .ok mpc =>
          let c : CustomerRecord :=
            { id := env.genId 0, userId := env.sessionUserId, mercadoPagoId := mpc.id,
              email := env.sessionEmail, createdAt := env.now, updatedAt := env.now }
          .ok (c, { st with customers := st.customers ++ [c] },
               { CreateEffects.zero with customerCalls := 1, customersCreated := 1 }, 1)
    match customerStep with
    | .error code => (.apiError code, st, { CreateEffects.zero with customerCalls := 1 })
    | .ok (customer, st1, eff1, nGen) =>
      let totalAmount := totalAmountOf body.items
      if ValidationRules.amount totalAmount = false then
        (.apiError (lc "BAD_REQUEST"), st1, eff1)
      else
        let fee : Rat := match body.marketplace with
                         | some m => marketplaceFee m totalAmount
                         | none => 0
        if body.marketplace.isSome ∧ totalAmount ≤ fee then
          (.apiError (lc "BAD_REQUEST"), st1, eff1)
        else
          let meta1 := objUpsert sanitizedMetadata (lc "userId") (.str env.sessionUserId)
          let meta2 := objUpsert meta1 (lc "customerId") (.str customer.id)
          let prefBody : PreferenceBody :=
            { items := body.items.map (fun it =>
                { id := it.id, title := it.title, quantity := it.quantity,
                  unit_price := it.unitPrice, currency_id := it.currencyId }),
              payer_email := some env.sessionEmail,
              back_success := body.successUrl.getD (env.baseUrl ++ lc "/payment/success"),
              back_failure := body.failureUrl.getD (env.baseUrl ++ lc "/payment/failure"),
              back_pending := body.pendingUrl.getD (env.baseUrl ++ lc "/payment/pending"),
              notification_url := some (env.baseUrl ++ lc "/api/auth/mercado-pago/webhook"),
              auto_return := none,
              external_reference := none,
              metadata := meta2,
              expires := true,
              expiration_date_from := some env.now,
              expiration_date_to := some (env.now + 2592000000),
              marketplace := body.marketplace.map (fun m => m.collectorId),
              marketplace_fee := if body.marketplace.isSome then some fee else none }
          let eff2 := { eff1 with prefCalls := eff1.prefCalls ++ [prefBody] }
          match env.createPreference prefBody with
          | .error e => (.apiError (handleMercadoPagoError e), st1, eff2)
          | .ok pref =>
            let payment : PaymentRecordS :=
              { id := env.genId nGen, userId := env.sessionUserId,
                mercadoPagoPaymentId := pref.id, preferenceId := pref.id,
                status := lc "pending", statusDetail := none, amount := totalAmount,
                currency := firstCurrency body.items, paymentMethodId := none,
                paymentTypeId := none, metadata := .obj sanitizedMetadata,
                createdAt := env.now, updatedAt := env.now }
            let st2 := { st1 with payments := st1.payments ++ [payment] }
            let eff3 := { eff2 with paymentsCreated := eff2.paymentsCreated + 1 }
            let afterSplit : CreateStateS × CreateEffects :=
              match body.marketplace with
              | some m =>
                let split : SplitRecord :=
                  { id := env.genId (nGen + 1), paymentId := payment.id,
                    collectorId := m.collectorId, collectorEmail := [],
                    applicationFeeAmount := fee,
                    applicationFeePercentage := m.applicationFeePercentage,
                    netAmount := totalAmount - fee, metadata := .obj [],
                    createdAt := env.now }
                ({ st2 with splits := st2.splits ++ [split] },
                 { eff3 with splitsCreated := eff3.splitsCreated + 1 })
              | none => (st2, eff3)
            let result : CreateResultS :=
              { checkoutUrl := pref.init_point, preferenceId := pref.id, payment := payment }
            let st3 := afterSplit.1
            let st4 :=
              match keyQ with
              | some k => { st3 with idem := IdempotencyStore.set st3.idem k result 86400000 env.now }
              | none => st3
            (.ok result, st4, afterSplit.2)

/-- The `createPayment` endpoint handler of server.ts, modelled for an
authenticated session (an unauthenticated call throws before touching
any state). -/
def createPaymentServerTs (env : CreateEnvS) (body : CreateBodyS) (st : CreateStateS) :
    CreateRespS × CreateStateS × CreateEffects :=
  let rlr := RateLimiter.check st.rl (lc "payment:create:" ++ env.sessionUserId) 10 60000 env.now
  let st1 := { st with rl := rlr.2 }
  if rlr.1 = false then (.apiError (lc "TOO_MANY_REQUESTS"), st1, .zero)
  else
    match body.idempotencyKey with
    | some k =>
      if validateIdempotencyKey k = false then (.apiError (lc "BAD_REQUEST"), st1, .zero)
      else
        let g := IdempotencyStore.get st1.idem k env.now
        let st2 := { st1 with idem := g.2 }
        match g.1 with
        | some cached => (.ok cached, st2, .zero)
        | none => createPaymentAfterIdemS env body (some k) st2
    | none => createPaymentAfterIdemS env body none st1

/-! ## Payment creation, external-reference variant -/

/-- The request body of the external-reference creation endpoint
(`MercadoPagoPreferenceSchema` plus `idempotencyKey`); `back_urls` is
destructured into its three optional components. -/
structure CreateBodyX where
  items : List CreateItemInput
  backSuccess : Option LC
  backFailure : Option LC
  backPending : Option LC
  metadata : Option (List (LC × JsValue))
  idempotencyKey : Option LC

/-- The JSON returned by the external-reference creation endpoint. -/
structure CreateResultX where
  checkoutUrl : Option LC
  preferenceId : LC
  payment : PaymentRecordX

/-- Mutable state of the external-reference creation endpoint. -/
structure CreateStateX where
  rl : RateLimiterMap
  idem : IdemStore CreateResultX
  payments : List PaymentRecordX

/-- Environment of one external-reference creation call.  `dbId` is the
record id filled in by the persistence adapter (the handler passes no
`id`), and `genId 0` is the one `generateId()` call that produces the
`externalReference`. -/
structure CreateEnvX where
  now : Nat
  genId : Nat → LC
  dbId : LC
  baseUrl : LC
  sessionUserId : LC
  createPreference : PreferenceBody → Except MPRawError MPPreferenceResp

/-- Outcome of an external-reference creation call: this handler has no
try/catch around the provider call, so a provider rejection escapes as
a raw (untranslated) error. -/
inductive CreateRespX where
  | ok (r : CreateResultX)
  | apiError (code : LC)
  | rawRejection

/-- The part of the external-reference creation handler after the
idempotency gate. -/
def createPaymentAfterIdemX (env : CreateEnvX) (body : CreateBodyX)
    (keyQ : Option LC) (st : CreateStateX) :
    CreateRespX × CreateStateX × CreateEffects :=
  if body.items.any (fun it => ValidationRules.currency it.currencyId = false) then
    (.apiError (lc "BAD_REQUEST"), st, .zero)
  else
    let sanitizedMetadata := match body.metadata with
                             | some m => sanitizeMetadata m
                             | none => []
    let totalAmount := totalAmountOf body.items
    if ValidationRules.amount totalAmount = false then
      (.apiError (lc "BAD_REQUEST"), st, .zero)
    else
      let externalReference := env.genId 0
      let prefBody : PreferenceBody :=
        { items := body.items.map (fun it =>
            { id := it.id, title := it.title, quantity := it.quantity,
              unit_price := it.unitPrice, currency_id := it.currencyId }),
          payer_email := none,
          back_success := body.backSuccess.getD (env.baseUrl ++ lc "/payments/one-time?status=success"),
          back_failure := body.backFailure.getD (env.baseUrl ++ lc "/payments/one-time?status=failure"),
          back_pending := body.backPending.getD (env.baseUrl ++ lc "/payments/one-time?status=pending"),
          notification_url := none,
          auto_return := some (lc "approved"),
          external_reference := some externalReference,
          metadata := objUpsert sanitizedMetadata (lc "userId") (.str env.sessionUserId),
          expires := true,
          expiration_date_from := none,
          expiration_date_to := none,
          marketplace := none,
          marketplace_fee := none }
      let eff1 := { CreateEffects.zero with prefCalls := [prefBody] }
      match env.createPreference prefBody with
      | .error _ => (.rawRejection, st, eff1)
      | .ok pref =>
        let payment : PaymentRecordX :=
          { id := env.dbId, externalReference := externalReference,
            userId := env.sessionUserId, mercadoPagoPaymentId := none,
            preferenceId := pref.id, status := lc "pending", statusDetail := none,
            amount := totalAmount, currency := firstCurrency body.items,
            paymentMethodId := none, paymentTypeId := none,
            metadata := .obj (objUpsert sanitizedMetadata (lc "preferenceId") (.str pref.id)),
            createdAt := env.now, updatedAt := env.now }
        let st1 := { st with payments := st.payments ++ [payment] }
        let eff2 := { eff1 with paymentsCreated := 1 }
        let result : CreateResultX :=
          { checkoutUrl := pref.init_point, preferenceId := pref.id, payment := payment }
        let st2 :=
          match keyQ with
          | some k => { st1 with idem := IdempotencyStore.set st1.idem k result 86400000 env.now }
          | none => st1
        (.ok result, st2, eff2)

/-- The `createPayment` endpoint handler of the external-reference
variant, modelled for an authenticated session. -/
def createPaymentExtRef (env : CreateEnvX) (body : CreateBodyX) (st : CreateStateX) :
    CreateRespX × CreateStateX × CreateEffects :=
  let rlr := RateLimiter.check st.rl (lc "payment:create:" ++ env.sessionUserId) 10 60000 env.now
  let st1 := { st with rl := rlr.2 }
  if rlr.1 = false then (.apiError (lc "TOO_MANY_REQUESTS"), st1, .zero)
  else
    match body.idempotencyKey with
    | some k =>
      if validateIdempotencyKey k = false then (.apiError (lc "BAD_REQUEST"), st1, .zero)
      else
        let g := IdempotencyStore.get st1.idem k env.now
        let st2 := { st1 with idem := g.2 }
        match g.1 with
        | some cached => (.ok cached, st2, .zero)
        | none => createPaymentAfterIdemX env body (some k) st2
    | none => createPaymentAfterIdemX env body none st1

/-! ## Predicates and iteration harnesses used by the specification -/

/-- Is the value a scalar the sanitiser must leave untouched
(numbers, booleans, `null`, and strings within the length cap)? -/
def isScalarJs : JsValue → Bool
  | .num _ => true
  | .bool _ => true
  | .null => true
  | .str s => decide (s.length ≤ 5000)
  | _ => false

/-- Is the value an array? -/
def isArrJs : JsValue → Bool
  | .arr _ => true
  | _ => false

mutual

/-- No own enumerable key of any nested object is a polluting key. -/
def noBannedFields : List (LC × JsValue) → Bool
  | [] => true
  | (k, v) :: rest => !bannedKey k && noBannedValue v && noBannedFields rest

/-- `noBannedFields` lifted to a value. -/
def noBannedValue : JsValue → Bool
  | .obj fs => noBannedFields fs
  | .arr xs => noBannedList xs
  | _ => true

/-- `noBannedValue` on every element of a list. -/
def noBannedList : List JsValue → Bool
  | [] => true
  | x :: rest => noBannedValue x && noBannedList rest

end

/-- Iterate `RateLimiter.check` over a list of call times, collecting
the verdicts and threading the map. -/
def rlRun (st : RateLimiterMap) (key : LC) (maxAttempts windowMs : Nat) :
    List Nat → List Bool × RateLimiterMap
  | [] => ([], st)
  | t :: rest =>
    let r := RateLimiter.check st key maxAttempts windowMs t
    let rr := rlRun r.2 key maxAttempts windowMs rest
    (r.1 :: rr.1, rr.2)

/-! ## Concrete fixtures used by witnesses and counterexamples -/

/-- Webhook options: no secret configured, payment callback installed. -/
def wopts0 : WebhookOptions := ⟨none, true, false, true, false, true, false⟩

/-- Webhook options with a throwing payment callback. -/
def woptsThrow : WebhookOptions := ⟨none, true, true, true, false, true, false⟩

/-- An inbound request with no signature headers. -/
def wreq0 : WebhookRequest := ⟨true, none, none⟩

/-- A `payment` notification for provider payment id 77. -/
def wbodyPayment : WebhookBody := ⟨true, some (lc "payment"), some (lc "77")⟩

/-- A provider payment response whose amount matches the local record. -/
def mp100 : MPPaymentResponse := ⟨lc "approved", none, some 100, none, none, none⟩

/-- A provider payment response whose amount does not match the local
record. -/
def mp200 : MPPaymentResponse := ⟨lc "approved", none, some 200, none, none, none⟩

/-- A pending local payment record of amount 100 correlated to provider
payment id 77. -/
def payRec0 : PaymentRecordS :=
  ⟨lc "p1", lc "u1", lc "77", lc "pref", lc "pending", none, 100, lc "ARS",
   none, none, .null, 0, 0⟩

/-- A provider whose payment fetch returns the matching response. -/
def worldOk100 : MPWorld := ⟨fun _ => .ok mp100, fun _ => .error ()⟩

/-- A provider whose payment fetch returns a tampered amount. -/
def worldAmount200 : MPWorld := ⟨fun _ => .ok mp200, fun _ => .error ()⟩

/-- A provider whose fetches all fail. -/
def worldFetchFail : MPWorld := ⟨fun _ => .error (), fun _ => .error ()⟩

/-- Initial webhook state: empty limiter and store, one pending record. -/
def wst0 : WebhookStateS := ⟨[], [], [payRec0], []⟩

/-- One valid input item: quantity 1, unit price 100 ARS. -/
def cItem0 : CreateItemInput := ⟨lc "i1", lc "Product", 1, 100, lc "ARS"⟩

/-- A minimal server.ts creation request: one item, nothing else. -/
def cbodyS0 : CreateBodyS := ⟨[cItem0], none, none, none, none, none, none⟩

/-- The provider preference returned by the successful oracle. -/
def mpPref0 : MPPreferenceResp := ⟨lc "prefid", some (lc "https://mp/init")⟩

/-- A server.ts creation environment whose provider calls succeed. -/
def cenvS0 : CreateEnvS :=
  ⟨0, fun n => lc "gid" ++ natToStr n, fun _ => none, false, lc "https://app",
   lc "u1", lc "u@example.com", none, .ok ⟨lc "cus1"⟩, fun _ => .ok mpPref0⟩

/-- A provider rejection with HTTP status 400. -/
def mpe400 : MPRawError := ⟨some 400, some (lc "bad_request"), some (lc "invalid")⟩

/-- A server.ts creation environment whose preference call is rejected. -/
def cenvSFail : CreateEnvS :=
  ⟨0, fun n => lc "gid" ++ natToStr n, fun _ => none, false, lc "https://app",
   lc "u1", lc "u@example.com", none, .ok ⟨lc "cus1"⟩, fun _ => .error mpe400⟩

/-- An empty server.ts creation state. -/
def cstS0 : CreateStateS := ⟨[], [], [], [], []⟩

/-- An existing `mercadoPagoCustomer` row for user `u1`. -/
def custRec0 : CustomerRecord := ⟨lc "c1", lc "u1", lc "mpc1", lc "u@example.com", 0, 0⟩

/-- A server.ts creation state that already holds the customer row. -/
def cstS1 : CreateStateS := ⟨[], [], [custRec0], [], []⟩

/-- A minimal external-reference creation request: one item, nothing else. -/
def cbodyX0 : CreateBodyX := ⟨[cItem0], none, none, none, none, none⟩

/-- An external-reference creation environment whose provider call
succeeds; `genId 0` is the generated `externalReference`. -/
def cenvX0 : CreateEnvX :=
  ⟨0, fun n => lc "ext" ++ natToStr n, lc "dbid1", lc "https://app", lc "u1",
   fun _ => .ok mpPref0⟩

/-- An empty external-reference creation state. -/
def cstX0 : CreateStateX := ⟨[], [], []⟩

/-! ## Helper lemmas: JS string splitting and prefixes -/

theorem splitC_not_mem {sep : Char} {a : LC} (h : sep ∉ a) : splitC sep a = [a] := by
  induction a with
  | nil => rfl
  | cons c rest ih =>
    have hc : ¬ c = sep := fun hh => h (hh ▸ List.mem_cons_self c rest)
    have hr : sep ∉ rest := fun hm => h (List.mem_cons_of_mem _ hm)
    simp [splitC, hc, ih hr]

theorem splitC_append_sep {sep : Char} {a : LC} (b : LC) (h : sep ∉ a) :
    splitC sep (a ++ sep :: b) = a :: splitC sep b := by
  induction a with
  | nil => simp [splitC]
  | cons c rest ih =>
    have hc : ¬ c = sep := fun hh => h (hh ▸ List.mem_cons_self c rest)
    have hr : sep ∉ rest := fun hm => h (List.mem_cons_of_mem _ hm)
    simp [splitC, hc, ih hr]

theorem lcStartsWith_append (p x : LC) : lcStartsWith (p ++ x) p = true := by
  induction p with
  | nil => simp [lcStartsWith, List.isPrefixOf]
  | cons c rest ih =>
    simp only [lcStartsWith, List.isPrefixOf, List.cons_append, beq_self_eq_true,
      Bool.true_and] at ih ⊢
    exact ih

/-! ## Helper lemmas: hex digests -/

theorem hexDigit_mem (n : Nat) : hexDigit n ∈ hexChars := List.get_mem _ _ _

theorem hexChars_props : ∀ c ∈ hexChars, c.toNat < 128 ∧ ¬ c = ',' ∧ ¬ c = '=' := by decide

theorem bytesHex_mem {c : Char} {bs : List Nat} (h : c ∈ bytesHex bs) : c ∈ hexChars := by
  rcases List.mem_flatMap.mp h with ⟨b, _, hc⟩
  simp only [List.mem_cons, List.mem_singleton, List.not_mem_nil, or_false] at hc
  rcases hc with h1 | h1
  · exact h1 ▸ hexDigit_mem _
  · exact h1 ▸ hexDigit_mem _

theorem bytesHex_length (bs : List Nat) : (bytesHex bs).length = 2 * bs.length := by
  induction bs with
  | nil => rfl
  | cons b rest ih =>
    simp only [bytesHex] at ih ⊢
    simp [List.flatMap_cons, ih]
    omega

theorem beBytes_length (k : Nat) : ∀ n, (beBytes k n).length = k := by
  induction k with
  | zero => intro n; rfl
  | succ k ih => intro n; simp [beBytes, ih]

theorem sha256Bytes_length (m : List Nat) : (sha256Bytes m).length = 32 := by
  simp [sha256Bytes, sha256Digest, beBytes_length]

theorem hmacSha256_length (key msg : List Nat) : (hmacSha256 key msg).length = 32 := by
  simp [hmacSha256, sha256Bytes_length]

theorem hmacSha256Hex_length (secret msg : LC) : (hmacSha256Hex secret msg).length = 64 := by
  simp [hmacSha256Hex, bytesHex_length, hmacSha256_length]

theorem hmacSha256Hex_mem {c : Char} {secret msg : LC}
    (h : c ∈ hmacSha256Hex secret msg) : c ∈ hexChars := bytesHex_mem h

theorem utf8Len_ascii {s : LC} (h : ∀ c ∈ s, c.toNat < 128) : utf8Len s = s.length := by
  induction s with
  | nil => rfl
  | cons c rest ih =>
    have h1 : c.toNat < 128 := h c (List.mem_cons_self c rest)
    have h2 : ∀ x ∈ rest, x.toNat < 128 := fun x hx => h x (List.mem_cons_of_mem _ hx)
    simp only [utf8Len, List.map_cons, List.sum_cons] at ih ⊢
    rw [ih h2, utf8CharLen, if_pos h1, List.length_cons]
    omega

/-! ## Helper lemmas: the signature header parse -/

theorem verifyWebhookSignature_parse (dataId requestId secret ts hash : LC)
    (hts0 : ts ≠ []) (hts1 : ',' ∉ ts) (hts2 : '=' ∉ ts)
    (hh0 : hash ≠ []) (hh1 : ',' ∉ hash) (hh2 : '=' ∉ hash) (hreq : requestId ≠ []) :
    verifyWebhookSignature (some (lc "ts=" ++ ts ++ lc ",v1=" ++ hash))
        (some requestId) dataId secret
      = timingSafeEqual hash (hmacSha256Hex secret (webhookManifest dataId requestId ts)) := by
  have hcomma_a : ',' ∉ lc "ts=" ++ ts := by
    intro hm
    rcases List.mem_append.mp hm with h | h
    · revert h; decide
    · exact hts1 h
  have hcomma_b : ',' ∉ lc "v1=" ++ hash := by
    intro hm
    rcases List.mem_append.mp hm with h | h
    · revert h; decide
    · exact hh1 h
  have e1 : lc "ts=" ++ ts ++ lc ",v1=" ++ hash
      = (lc "ts=" ++ ts) ++ ',' :: (lc "v1=" ++ hash) := by
    have e0 : lc ",v1=" = ',' :: lc "v1=" := rfl
    rw [e0]
    simp [List.append_assoc]
  have hsplit : splitC ',' (lc "ts=" ++ ts ++ lc ",v1=" ++ hash)
      = [lc "ts=" ++ ts, lc "v1=" ++ hash] := by
    rw [e1, splitC_append_sep _ hcomma_a, splitC_not_mem hcomma_b]
  have hsplit_ts : splitC '=' (lc "ts=" ++ ts) = [lc "ts", ts] := by
    have e2 : lc "ts=" ++ ts = lc "ts" ++ '=' :: ts := rfl
    rw [e2, splitC_append_sep _ (by decide), splitC_not_mem hts2]
  have hsplit_v1 : splitC '=' (lc "v1=" ++ hash) = [lc "v1", hash] := by
    have e2 : lc "v1=" ++ hash = lc "v1" ++ '=' :: hash := rfl
    rw [e2, splitC_append_sep _ (by decide), splitC_not_mem hh2]
  have hp1 : lcStartsWith (lc "ts=" ++ ts) (lc "ts=") = true := lcStartsWith_append _ _
  have hp2 : lcStartsWith (lc "ts=" ++ ts) (lc "v1=") = false := rfl
  have hp3 : lcStartsWith (lc "v1=" ++ hash) (lc "v1=") = true := lcStartsWith_append _ _
  have hfind_ts : sigComponent [lc "ts=" ++ ts, lc "v1=" ++ hash] (lc "ts=") = some ts := by
    simp [sigComponent, List.find?_cons, hp1, hsplit_ts]
  have hfind_v1 : sigComponent [lc "ts=" ++ ts, lc "v1=" ++ hash] (lc "v1=") = some hash := by
    simp [sigComponent, List.find?_cons, hp1, hp2, hp3, hsplit_v1]
  have hne : lc "ts=" ++ ts ++ lc ",v1=" ++ hash ≠ [] := by
    rw [e1]; simp
  have hcond1 : ¬ (lc "ts=" ++ ts ++ lc ",v1=" ++ hash = [] ∨ requestId = []) := by
    intro h
    rcases h with h | h
    · exact hne h
    · exact hreq h
  have hcond2 : ¬ (ts = [] ∨ hash = []) := by
    intro h
    rcases h with h | h
    · exact hts0 h
    · exact hh0 h
  simp only [verifyWebhookSignature, hsplit, hfind_ts, hfind_v1, if_neg hcond1, if_neg hcond2]

/-- Claim C4 (code bug): the verifier is not total — on a well-formed
header whose `v1` hash is shorter than the 64-character HMAC hex digest,
`crypto.timingSafeEqual` receives buffers of different byte lengths and
raises a `RangeError` instead of returning `false`.  This theorem
evaluates the embedded verifier at such an input. -/
theorem verifyWebhookSignature_short_hash_raises :
    verifyWebhookSignature (some (lc "ts=1,v1=ab")) (some (lc "r")) (lc "1") (lc "s")
      = .error .rangeError := by decide

/-- Claim C5 (counterexample): the claim quantifies over all `ts`
values, but a `ts` containing the header separator breaks the parse:
with `ts = "1,x"`, the hash computed over the documented manifest for
that `ts` is compared against the HMAC of the manifest rebuilt from the
truncated parsed timestamp `"1"`, and verification returns `false`. -/
theorem verifyWebhookSignature_ts_comma_cex :
    verifyWebhookSignature
      (some (lc "ts=1,x,v1=" ++ hmacSha256Hex (lc "s") (webhookManifest (lc "5") (lc "r") (lc "1,x"))))
      (some (lc "r")) (lc "5") (lc "s") = .ok false := by decide

/-- Claim C5 (amended): for every secret and dataId, every nonempty
requestId, and every nonempty ts free of the separator characters comma
and equals, a v1 hash computed as HMAC-SHA256 over the manifest
`id:` dataId `;request-id:` requestId `;ts:` ts `;` and supplied in a
header of the form `ts=...,v1=...` verifies as valid; and mutating any
single character of that hash to a different one-byte character other
than comma and equals makes verification return `false`. -/
theorem verifyWebhookSignature_hmac_spec
    (secret dataId requestId ts : LC) (i : Nat) (c : Char)
    (hreq : requestId ≠ []) (hts0 : ts ≠ []) (hts1 : ',' ∉ ts) (hts2 : '=' ∉ ts)
    (hi : i < 64) (hc1 : c.toNat < 128) (hc2 : c ≠ ',') (hc3 : c ≠ '=')
    (hc4 : c ≠ (hmacSha256Hex secret (webhookManifest dataId requestId ts)).getD i ' ') :
    verifyWebhookSignature
        (some (lc "ts=" ++ ts ++ lc ",v1=" ++
          hmacSha256Hex secret (webhookManifest dataId requestId ts)))
        (some requestId) dataId secret = .ok true
    ∧ verifyWebhookSignature
        (some (lc "ts=" ++ ts ++ lc ",v1=" ++
          (hmacSha256Hex secret (webhookManifest dataId requestId ts)).set i c))
        (some requestId) dataId secret = .ok false := by
  have hlen : (hmacSha256Hex secret (webhookManifest dataId requestId ts)).length = 64 :=
    hmacSha256Hex_length _ _
  have hmemH : ∀ x ∈ hmacSha256Hex secret (webhookManifest dataId requestId ts),
      x ∈ hexChars := fun _ hx => hmacSha256Hex_mem hx
  have hH0 : hmacSha256Hex secret (webhookManifest dataId requestId ts) ≠ [] := by
    intro h
    rw [h] at hlen
    simp at hlen
  have hHc : ',' ∉ hmacSha256Hex secret (webhookManifest dataId requestId ts) :=
    fun hm => (hexChars_props _ (hmemH _ hm)).2.1 rfl
  have hHe : '=' ∉ hmacSha256Hex secret (webhookManifest dataId requestId ts) :=
    fun hm => (hexChars_props _ (hmemH _ hm)).2.2 rfl
  have hHascii : ∀ x ∈ hmacSha256Hex secret (webhookManifest dataId requestId ts),
      x.toNat < 128 := fun x hx => (hexChars_props x (hmemH x hx)).1
  constructor
  · rw [verifyWebhookSignature_parse dataId requestId secret ts _ hts0 hts1 hts2 hH0 hHc hHe hreq]
    simp [timingSafeEqual]
  · have hH2mem : ∀ x ∈ (hmacSha256Hex secret (webhookManifest dataId requestId ts)).set i c,
        x ∈ hexChars ∨ x = c :=
      fun x hx => (List.mem_or_eq_of_mem_set hx).imp (hmemH x) id
    have hH2len : ((hmacSha256Hex secret (webhookManifest dataId requestId ts)).set i c).length = 64 := by
      rw [List.length_set]; exact hlen
    have hH20 : (hmacSha256Hex secret (webhookManifest dataId requestId ts)).set i c ≠ [] := by
      intro h
      rw [h] at hH2len
      simp at hH2len
    have hH2c : ',' ∉ (hmacSha256Hex secret (webhookManifest dataId requestId ts)).set i c := by
      intro hm
      rcases hH2mem _ hm with h | h
      · exact (hexChars_props _ h).2.1 rfl
      · exact hc2 h.symm
    have hH2e : '=' ∉ (hmacSha256Hex secret (webhookManifest dataId requestId ts)).set i c := by
      intro hm
      rcases hH2mem _ hm with h | h
      · exact (hexChars_props _ h).2.2 rfl
      · exact hc3 h.symm
    have hH2ascii : ∀ x ∈ (hmacSha256Hex secret (webhookManifest dataId requestId ts)).set i c,
        x.toNat < 128 := by
      intro x hx
      rcases hH2mem _ hx with h | h
      · exact (hexChars_props _ h).1
      · exact h ▸ hc1
    rw [verifyWebhookSignature_parse dataId requestId secret ts _ hts0 hts1 hts2 hH20 hH2c hH2e hreq]
    have hlen1 : utf8Len ((hmacSha256Hex secret (webhookManifest dataId requestId ts)).set i c) = 64 := by
      rw [utf8Len_ascii hH2ascii, hH2len]
    have hlen2 : utf8Len (hmacSha256Hex secret (webhookManifest dataId requestId ts)) = 64 := by
      rw [utf8Len_ascii hHascii, hlen]
    have hih : i < (hmacSha256Hex secret (webhookManifest dataId requestId ts)).length := by
      rw [hlen]; exact hi
    have hib : i < ((hmacSha256Hex secret (webhookManifest dataId requestId ts)).set i c).length := by
      rw [hH2len]; exact hi
    have hne : (hmacSha256Hex secret (webhookManifest dataId requestId ts)).set i c
        ≠ hmacSha256Hex secret (webhookManifest dataId requestId ts) := by
      intro heq
      apply hc4
      rw [List.getD_eq_getElem _ ' ' hih]
      have hset : ((hmacSha256Hex secret (webhookManifest dataId requestId ts)).set i c)[i] = c :=
        List.getElem_set_self _
      have h2 : ((hmacSha256Hex secret (webhookManifest dataId requestId ts)).set i c)[i]?
          = (hmacSha256Hex secret (webhookManifest dataId requestId ts))[i]? := by rw [heq]
      rw [List.getElem?_eq_getElem hib, List.getElem?_eq_getElem hih] at h2
      exact hset.symm.trans (Option.some.inj h2)
    have hbeq : (((hmacSha256Hex secret (webhookManifest dataId requestId ts)).set i c)
        == hmacSha256Hex secret (webhookManifest dataId requestId ts)) = false :=
      beq_eq_false_iff_ne.mpr hne
    simp [timingSafeEqual, hlen1, hlen2, hbeq]

/-- Claim C5 (witness): the amended verifier round-trip theorem applied
at a concrete secret, data id, request id, timestamp, mutation position
and mutation character. -/
theorem verifyWebhookSignature_hmac_spec_witness :
    ((lc "r") ≠ ([] : LC) ∧ (lc "1") ≠ ([] : LC) ∧ (0 : Nat) < 64) ∧
    (verifyWebhookSignature
        (some (lc "ts=" ++ lc "1" ++ lc ",v1=" ++
          hmacSha256Hex (lc "k") (webhookManifest (lc "d") (lc "r") (lc "1"))))
        (some (lc "r")) (lc "d") (lc "k") = .ok true
     ∧ verifyWebhookSignature
        (some (lc "ts=" ++ lc "1" ++ lc ",v1=" ++
          (hmacSha256Hex (lc "k") (webhookManifest (lc "d") (lc "r") (lc "1"))).set 0 'z'))
        (some (lc "r")) (lc "d") (lc "k") = .ok false) :=
  ⟨⟨by decide, by decide, by decide⟩,
   verifyWebhookSignature_hmac_spec (lc "k") (lc "d") (lc "r") (lc "1") 0 'z'
     (by decide) (by decide) (by decide) (by decide) (by decide) (by decide)
     (by decide) (by decide) (by decide)⟩

/-! ## Helper lemmas: metadata sanitisation -/

theorem mem_sanitizeMetadata {fs : List (LC × JsValue)} {k : LC} {v : JsValue}
    (hmem : (k, v) ∈ fs) (hk : bannedKey k = false) :
    (k, sanitizeValue v) ∈ sanitizeMetadata fs := by
  induction fs with
  | nil => cases hmem
  | cons hd rest ih =>
    obtain ⟨k2, v2⟩ := hd
    rcases List.mem_cons.mp hmem with h | h
    · obtain ⟨hk2, hv2⟩ := Prod.mk.injEq .. ▸ h
      subst hk2
      subst hv2
      simp [sanitizeMetadata, hk]
    · by_cases hb : bannedKey k2
      · simpa [sanitizeMetadata, hb] using ih h
      · simp only [sanitizeMetadata, hb, Bool.false_eq_true, if_false]
        exact List.mem_cons_of_mem _ (ih h)

theorem sanitize_noBanned_aux :
    ∀ n : Nat,
      (∀ fs : List (LC × JsValue), sizeOf fs ≤ n →
        noBannedFields (sanitizeMetadata fs) = true) ∧
      (∀ v : JsValue, sizeOf v ≤ n → noBannedValue (sanitizeValue v) = true) ∧
      (∀ (i : Nat) (xs : List JsValue), sizeOf xs ≤ n →
        noBannedFields (sanitizeArrayEntries i xs) = true) := by
  intro n
  induction n using Nat.strong_induction_on with
  | _ n IH =>
    refine ⟨?_, ?_, ?_⟩
    · intro fs hsz
      match fs with
      | [] => simp [sanitizeMetadata, noBannedFields]
      | (k, v) :: rest =>
        have hszv : sizeOf v < n := by
          have := List.cons.sizeOf_spec (k, v) rest
          have := Prod.mk.sizeOf_spec k v
          omega
        have hszr : sizeOf rest < n := by
          have := List.cons.sizeOf_spec (k, v) rest
          omega
        have hv := ((IH (sizeOf v) hszv).2.1) v (Nat.le_refl _)
        have hr := ((IH (sizeOf rest) hszr).1) rest (Nat.le_refl _)
        by_cases hb : bannedKey k
        · simp [sanitizeMetadata, hb, hr]
        · simp [sanitizeMetadata, hb, noBannedFields, hv, hr]
    · intro v hsz
      match v with
      | .str s =>
        by_cases hl : 5000 < s.length <;> simp [sanitizeValue, noBannedValue, hl]
      | .num q => simp [sanitizeValue, noBannedValue]
      | .bool b => simp [sanitizeValue, noBannedValue]
      | .null => simp [sanitizeValue, noBannedValue]
      | .obj fs =>
        have hszf : sizeOf fs < n := by
          have := JsValue.obj.sizeOf_spec fs
          omega
        have := ((IH (sizeOf fs) hszf).1) fs (Nat.le_refl _)
        simp [sanitizeValue, noBannedValue, this]
      | .arr xs =>
        have hszx : sizeOf xs < n := by
          have := JsValue.arr.sizeOf_spec xs
          omega
        have := ((IH (sizeOf xs) hszx).2.2) 0 xs (Nat.le_refl _)
        simp [sanitizeValue, noBannedValue, this]
    · intro i xs hsz
      match xs with
      | [] => simp [sanitizeArrayEntries, noBannedFields]
      | x :: rest =>
        have hszx : sizeOf x < n := by
          have := List.cons.sizeOf_spec x rest
          omega
        have hszr : sizeOf rest < n := by
          have := List.cons.sizeOf_spec x rest
          omega
        have hx := ((IH (sizeOf x) hszx).2.1) x (Nat.le_refl _)
        have hr : noBannedFields (sanitizeArrayEntries (i + 1) rest) = true := by
          have hrec := (IH (sizeOf rest) hszr).2.2
          exact hrec (i + 1) rest (Nat.le_refl _)
        by_cases hb : bannedKey (natToStr i)
        · simp [sanitizeArrayEntries, hb, hr]
        · simp [sanitizeArrayEntries, hb, noBannedFields, hx, hr]

theorem sanitizeValue_scalar {v : JsValue} (h : isScalarJs v = true) :
    sanitizeValue v = v := by
  match v with
  | .str s =>
    have : ¬ 5000 < s.length := by
      simp [isScalarJs] at h
      omega
    simp [sanitizeValue, this]
  | .num q => rfl
  | .bool b => rfl
  | .null => rfl
  | .obj fs => simp [isScalarJs] at h
  | .arr xs => simp [isScalarJs] at h

/-- Claim C7 (counterexample): the sanitiser does not leave array values
as arrays.  `typeof [] === "object"`, so an array value is recursed
into as an object: its `Object.entries` are index-keyed, and the
sanitised result is a plain object, not an array. -/
theorem sanitizeMetadata_array_cex :
    sanitizeMetadata [(lc "a", JsValue.arr [JsValue.num 1])]
      = [(lc "a", JsValue.obj [(lc "0", JsValue.num 1)])]
    ∧ isArrJs (sanitizeValue (JsValue.arr [JsValue.num 1])) = false := by
  have hb : bannedKey (lc "a") = false := by decide
  have h0 : bannedKey (lc "0") = false := by decide
  have he : natToStr 0 = lc "0" := by decide
  constructor
  · simp [sanitizeMetadata, sanitizeValue, sanitizeArrayEntries, hb, h0, he]
  · simp [sanitizeValue, isArrJs]

/-- Claim C7 (amended): the sanitiser removes the keys `__proto__`,
`constructor` and `prototype` at every nesting depth, truncates every
string entry value longer than 5000 characters to exactly 5000,
recurses into nested objects, and leaves scalar entry values untouched;
an array value, however, does not stay an array: it is recursed into
like any other non-null object, producing a plain object keyed by the
decimal element indices (with the same per-element transform). -/
theorem sanitizeMetadata_spec (fs : List (LC × JsValue)) :
    noBannedFields (sanitizeMetadata fs) = true
    ∧ (∀ k s, (k, JsValue.str s) ∈ fs → bannedKey k = false → 5000 < s.length →
        (k, JsValue.str (s.take 5000)) ∈ sanitizeMetadata fs ∧ (s.take 5000).length = 5000)
    ∧ (∀ k v, (k, v) ∈ fs → bannedKey k = false → isScalarJs v = true →
        (k, v) ∈ sanitizeMetadata fs)
    ∧ (∀ k g, (k, JsValue.obj g) ∈ fs → bannedKey k = false →
        (k, JsValue.obj (sanitizeMetadata g)) ∈ sanitizeMetadata fs)
    ∧ (∀ k xs, (k, JsValue.arr xs) ∈ fs → bannedKey k = false →
        (k, JsValue.obj (sanitizeArrayEntries 0 xs)) ∈ sanitizeMetadata fs) := by
  refine ⟨?_, ?_, ?_, ?_, ?_⟩
  · exact (sanitize_noBanned_aux (sizeOf fs)).1 fs (Nat.le_refl _)
  · intro k s hmem hk hlong
    constructor
    · have := mem_sanitizeMetadata hmem hk
      simpa [sanitizeValue, hlong] using this
    · rw [List.length_take]
      omega
  · intro k v hmem hk hscalar
    have := mem_sanitizeMetadata hmem hk
    rwa [sanitizeValue_scalar hscalar] at this
  · intro k g hmem hk
    have := mem_sanitizeMetadata hmem hk
    simpa [sanitizeValue] using this
  · intro k xs hmem hk
    have := mem_sanitizeMetadata hmem hk
    simpa [sanitizeValue] using this

/-- Claim C7 (witness): the amended sanitiser theorem applied to a
concrete object containing one 6000-character string entry. -/
theorem sanitizeMetadata_spec_witness :
    (bannedKey (lc "meta") = false ∧ 5000 < (List.replicate 6000 'x').length) ∧
    ((lc "meta", JsValue.str ((List.replicate 6000 'x').take 5000)) ∈
        sanitizeMetadata [(lc "meta", JsValue.str (List.replicate 6000 'x'))]
      ∧ ((List.replicate 6000 'x').take 5000).length = 5000) :=
  ⟨⟨by decide, by rw [List.length_replicate]; omega⟩,
   (sanitizeMetadata_spec [(lc "meta", JsValue.str (List.replicate 6000 'x'))]).2.1
     (lc "meta") (List.replicate 6000 'x') (List.mem_cons_self _ _) (by decide)
     (by rw [List.length_replicate]; omega)⟩

/-! ## Helper lemmas: the rate limiter -/

theorem alFind_alSet_self {α : Type} (l : List (LC × α)) (k : LC) (v : α) :
    alFind (alSet l k v) k = some v := by
  induction l with
  | nil => simp [alSet, alFind]
  | cons hd rest ih =>
    obtain ⟨k2, v2⟩ := hd
    by_cases h : k2 == k
    · simp [alSet, h, alFind]
    · simp only [alSet, h, Bool.false_eq_true, if_false]
      simpa [alFind, h] using ih

theorem rlRun_within (key : LC) (N W r : Nat) :
    ∀ (ts : List Nat) (st : RateLimiterMap) (c : Nat),
      alFind st key = some (c, r) → (∀ t ∈ ts, t ≤ r) → c + ts.length ≤ N →
      (rlRun st key N W ts).1 = List.replicate ts.length true ∧
      alFind (rlRun st key N W ts).2 key = some (c + ts.length, r) := by
  intro ts
  induction ts with
  | nil =>
    intro st c h1 _ _
    simpa [rlRun] using h1
  | cons t rest ih =>
    intro st c h1 h2 h3
    have ht : t ≤ r := h2 t (List.mem_cons_self t rest)
    have hcN : ¬ N ≤ c := by
      simp only [List.length_cons] at h3
      omega
    have hstep : RateLimiter.check st key N W t = (true, alSet st key (c + 1, r)) := by
      simp [RateLimiter.check, h1, Nat.not_lt.mpr ht, hcN]
    have hfind2 : alFind (alSet st key (c + 1, r)) key = some (c + 1, r) :=
      alFind_alSet_self ..
    have h2r : ∀ x ∈ rest, x ≤ r := fun x hx => h2 x (List.mem_cons_of_mem _ hx)
    have h3r : (c + 1) + rest.length ≤ N := by
      simp only [List.length_cons] at h3
      omega
    obtain ⟨ha, hb⟩ := ih (alSet st key (c + 1, r)) (c + 1) hfind2 h2r h3r
    refine ⟨?_, ?_⟩
    · simp [rlRun, hstep, ha, List.replicate]
    · have harith : c + 1 + rest.length = c + (rest.length + 1) := by omega
      simp only [rlRun, hstep, List.length_cons]
      rw [← harith]
      exact hb

/-- Claim C8 (confirmed): starting with no record for a key, the first
`RateLimiter.check` call at time `t0` succeeds and initialises the count
to 1 with window end `t0 + W`; each of the remaining `N - 1` calls made
no later than `t0 + W` succeeds; one further call within the window
returns `false` and leaves the map unchanged; and any call after the
window has elapsed resets the window and succeeds. -/
theorem rateLimiter_fixed_window (key : LC) (N W t0 : Nat) (st0 : RateLimiterMap)
    (ts : List Nat) (tR tA : Nat)
    (_hN : 1 ≤ N) (h0 : alFind st0 key = none)
    (hts : ∀ t ∈ ts, t ≤ t0 + W) (hlen : ts.length + 1 = N)
    (hR : tR ≤ t0 + W) (hA : t0 + W < tA) :
    (RateLimiter.check st0 key N W t0).1 = true ∧
    alFind (RateLimiter.check st0 key N W t0).2 key = some (1, t0 + W) ∧
    (rlRun (RateLimiter.check st0 key N W t0).2 key N W ts).1
      = List.replicate ts.length true ∧
    (RateLimiter.check (rlRun (RateLimiter.check st0 key N W t0).2 key N W ts).2 key N W tR).1
      = false ∧
    (RateLimiter.check (rlRun (RateLimiter.check st0 key N W t0).2 key N W ts).2 key N W tR).2
      = (rlRun (RateLimiter.check st0 key N W t0).2 key N W ts).2 ∧
    (RateLimiter.check (rlRun (RateLimiter.check st0 key N W t0).2 key N W ts).2 key N W tA).1
      = true ∧
    alFind (RateLimiter.check (rlRun (RateLimiter.check st0 key N W t0).2 key N W ts).2 key N W tA).2 key
      = some (1, tA + W) := by
  have hstep0 : RateLimiter.check st0 key N W t0 = (true, alSet st0 key (1, t0 + W)) := by
    simp [RateLimiter.check, h0]
  have hfind1 : alFind (alSet st0 key (1, t0 + W)) key = some (1, t0 + W) :=
    alFind_alSet_self ..
  obtain ⟨ha, hb⟩ := rlRun_within key N W (t0 + W) ts (alSet st0 key (1, t0 + W)) 1
    hfind1 hts (by omega)
  have hbN : alFind (rlRun (alSet st0 key (1, t0 + W)) key N W ts).2 key
      = some (N, t0 + W) := by
    have : 1 + ts.length = N := by omega
    rwa [this] at hb
  have hstepR : RateLimiter.check (rlRun (alSet st0 key (1, t0 + W)) key N W ts).2 key N W tR
      = (false, (rlRun (alSet st0 key (1, t0 + W)) key N W ts).2) := by
    simp [RateLimiter.check, hbN, Nat.not_lt.mpr hR]
  have hstepA : RateLimiter.check (rlRun (alSet st0 key (1, t0 + W)) key N W ts).2 key N W tA
      = (true, alSet (rlRun (alSet st0 key (1, t0 + W)) key N W ts).2 key (1, tA + W)) := by
    simp [RateLimiter.check, hbN, hA]
  rw [hstep0]
  exact ⟨rfl, hfind1, ha, by rw [hstepR], by rw [hstepR], by rw [hstepA],
    by rw [hstepA]; exact alFind_alSet_self ..⟩

/-- Claim C8 (witness): the fixed-window theorem at `N = 2`, `W = 10`,
window start 0, call times 5 (second call), 9 (rejected third call) and
11 (after the window). -/
theorem rateLimiter_fixed_window_witness :
    ((1 : Nat) ≤ 2 ∧ alFind ([] : RateLimiterMap) (lc "k") = none ∧ (9 : Nat) ≤ 0 + 10 ∧ (0 : Nat) + 10 < 11) ∧
    ((RateLimiter.check [] (lc "k") 2 10 0).1 = true ∧
     alFind (RateLimiter.check [] (lc "k") 2 10 0).2 (lc "k") = some (1, 0 + 10) ∧
     (rlRun (RateLimiter.check [] (lc "k") 2 10 0).2 (lc "k") 2 10 [5]).1
       = List.replicate (List.length [5]) true ∧
     (RateLimiter.check (rlRun (RateLimiter.check [] (lc "k") 2 10 0).2 (lc "k") 2 10 [5]).2 (lc "k") 2 10 9).1
       = false ∧
     (RateLimiter.check (rlRun (RateLimiter.check [] (lc "k") 2 10 0).2 (lc "k") 2 10 [5]).2 (lc "k") 2 10 9).2
       = (rlRun (RateLimiter.check [] (lc "k") 2 10 0).2 (lc "k") 2 10 [5]).2 ∧
     (RateLimiter.check (rlRun (RateLimiter.check [] (lc "k") 2 10 0).2 (lc "k") 2 10 [5]).2 (lc "k") 2 10 11).1
       = true ∧
     alFind (RateLimiter.check (rlRun (RateLimiter.check [] (lc "k") 2 10 0).2 (lc "k") 2 10 [5]).2 (lc "k") 2 10 11).2 (lc "k")
       = some (1, 11 + 10)) :=
  ⟨⟨by decide, by decide, by decide, by decide⟩,
   rateLimiter_fixed_window (lc "k") 2 10 0 [] [5] 9 11 (by decide) (by decide)
     (by decide) (by decide) (by decide) (by decide)⟩

/-! ## Helper lemmas: stores and webhook control flow -/

theorem alErase_not_found {α : Type} {l : List (LC × α)} {k : LC}
    (h : alFind l k = none) : alErase l k = l := by
  induction l with
  | nil => rfl
  | cons hd rest ih =>
    obtain ⟨k2, v2⟩ := hd
    by_cases hb : k2 == k
    · simp [alFind, hb] at h
    · simp only [alFind, hb, Bool.false_eq_true, if_false] at h
      simp [alErase, hb, ih h]

theorem IdempotencyStore.get_not_found {α : Type} {store : IdemStore α} {key : LC}
    {now : Nat} (h : alFind store key = none) :
    IdempotencyStore.get store key now = (none, store) := by
  simp [IdempotencyStore.get, h, alErase_not_found h]

theorem IdempotencyStore.get_live {α : Type} {store : IdemStore α} {key : LC} {v : α}
    {e now : Nat} (h : alFind store key = some (v, e)) (hlive : ¬ e < now) :
    IdempotencyStore.get store key now = (some v, store) := by
  simp [IdempotencyStore.get, h, hlive]

theorem WebhookEffects.add_zero (x : WebhookEffects) : x.add WebhookEffects.zero = x := by
  cases x
  simp [WebhookEffects.add, WebhookEffects.zero]

theorem WebhookEffects.zero_add (x : WebhookEffects) : WebhookEffects.zero.add x = x := by
  cases x
  simp [WebhookEffects.add, WebhookEffects.zero]

theorem webhookStageSubscriptionS_skip (opts : WebhookOptions) (world : MPWorld)
    {ty : LC} (did : LC) (now : Nat) (st : WebhookStateS)
    (h : ¬ (ty = lc "subscription_preapproval" ∨ ty = lc "subscription_preapproval_plan")) :
    webhookStageSubscriptionS opts world ty did now st = .ok (st, .zero) := by
  simp [webhookStageSubscriptionS, h]

theorem webhookStageAuthorizedS_skip (opts : WebhookOptions) (world : MPWorld)
    {ty : LC} (did : LC) (st : WebhookStateS)
    (h : ¬ (ty = lc "subscription_authorized_payment" ∨ ty = lc "authorized_payment")) :
    webhookStageAuthorizedS opts world ty did st = .ok (st, .zero) := by
  simp [webhookStageAuthorizedS, h]

theorem webhookServerTs_fresh (opts : WebhookOptions) (world : MPWorld)
    (req : WebhookRequest) (body : WebhookBody) (now : Nat) (st : WebhookStateS)
    (ty did : LC)
    (hparse : body.parseOk = true) (hty : body.type = some ty)
    (hdid : body.dataId = some did) (hvalid : isValidWebhookTopic ty = true)
    (hdid0 : did ≠ []) (hreqp : req.present = true)
    (hsig : webhookSigCheckS opts req did = .pass)
    (hrl : (RateLimiter.check st.rl (lc "webhook:global") 1000 60000 now).1 = true)
    (hfresh : alFind st.idem (webhookDedupKeyS did ty) = none) :
    webhookServerTs opts world req body now st =
      (match webhookBusinessS opts world ty did now
          { st with rl := (RateLimiter.check st.rl (lc "webhook:global") 1000 60000 now).2,
                    idem := IdempotencyStore.set st.idem (webhookDedupKeyS did ty) true 86400000 now } with
       | .error code => (.apiError code,
           { st with rl := (RateLimiter.check st.rl (lc "webhook:global") 1000 60000 now).2,
                     idem := IdempotencyStore.set st.idem (webhookDedupKeyS did ty) true 86400000 now },
           WebhookEffects.zero)
       | .ok (st4, eff) => (.received, st4, eff)) := by
  simp only [webhookServerTs, hparse, hty, hdid, hvalid, hreqp, hsig, hrl, hdid0,
    IdempotencyStore.get_not_found hfresh, Bool.true_eq_false, false_or, or_self,
    if_false, ite_false, Option.isSome_none, ne_eq]
  simp [hdid0]

theorem webhookServerTs_hit (opts : WebhookOptions) (world : MPWorld)
    (req : WebhookRequest) (body : WebhookBody) (now : Nat) (st : WebhookStateS)
    (ty did : LC) (e : Nat)
    (hparse : body.parseOk = true) (hty : body.type = some ty)
    (hdid : body.dataId = some did) (hvalid : isValidWebhookTopic ty = true)
    (hdid0 : did ≠ []) (hreqp : req.present = true)
    (hsig : webhookSigCheckS opts req did = .pass)
    (hrl : (RateLimiter.check st.rl (lc "webhook:global") 1000 60000 now).1 = true)
    (hhit : alFind st.idem (webhookDedupKeyS did ty) = some (true, e))
    (hlive : ¬ e < now) :
    webhookServerTs opts world req body now st =
      (.received,
       { st with rl := (RateLimiter.check st.rl (lc "webhook:global") 1000 60000 now).2 },
       WebhookEffects.zero) := by
  simp only [webhookServerTs, hparse, hty, hdid, hvalid, hreqp, hsig, hrl,
    IdempotencyStore.get_live hhit hlive, Bool.true_eq_false, false_or, or_self,
    if_false, ite_false, ne_eq]
  simp [hdid0]

theorem webhookServerTs_hit_result (opts : WebhookOptions) (world : MPWorld)
    (req : WebhookRequest) (body : WebhookBody) (now : Nat) (st : WebhookStateS)
    (ty did : LC) (e : Nat)
    (hparse : body.parseOk = true) (hty : body.type = some ty)
    (hdid : body.dataId = some did) (hvalid : isValidWebhookTopic ty = true)
    (hdid0 : did ≠ []) (hreqp : req.present = true)
    (hsig : webhookSigCheckS opts req did = .pass)
    (hrl : (RateLimiter.check st.rl (lc "webhook:global") 1000 60000 now).1 = true)
    (hhit : alFind st.idem (webhookDedupKeyS did ty) = some (true, e))
    (hlive : ¬ e < now) :
    (webhookServerTs opts world req body now st).1 = .received := by
  rw [webhookServerTs_hit opts world req body now st ty did e
    hparse hty hdid hvalid hdid0 hreqp hsig hrl hhit hlive]

theorem webhookServerTs_hit_effects (opts : WebhookOptions) (world : MPWorld)
    (req : WebhookRequest) (body : WebhookBody) (now : Nat) (st : WebhookStateS)
    (ty did : LC) (e : Nat)
    (hparse : body.parseOk = true) (hty : body.type = some ty)
    (hdid : body.dataId = some did) (hvalid : isValidWebhookTopic ty = true)
    (hdid0 : did ≠ []) (hreqp : req.present = true)
    (hsig : webhookSigCheckS opts req did = .pass)
    (hrl : (RateLimiter.check st.rl (lc "webhook:global") 1000 60000 now).1 = true)
    (hhit : alFind st.idem (webhookDedupKeyS did ty) = some (true, e))
    (hlive : ¬ e < now) :
    (webhookServerTs opts world req body now st).2.2 = WebhookEffects.zero := by
  rw [webhookServerTs_hit opts world req body now st ty did e
    hparse hty hdid hvalid hdid0 hreqp hsig hrl hhit hlive]

theorem webhookServerTs_hit_payments (opts : WebhookOptions) (world : MPWorld)
    (req : WebhookRequest) (body : WebhookBody) (now : Nat) (st : WebhookStateS)
    (ty did : LC) (e : Nat)
    (hparse : body.parseOk = true) (hty : body.type = some ty)
    (hdid : body.dataId = some did) (hvalid : isValidWebhookTopic ty = true)
    (hdid0 : did ≠ []) (hreqp : req.present = true)
    (hsig : webhookSigCheckS opts req did = .pass)
    (hrl : (RateLimiter.check st.rl (lc "webhook:global") 1000 60000 now).1 = true)
    (hhit : alFind st.idem (webhookDedupKeyS did ty) = some (true, e))
    (hlive : ¬ e < now) :
    (webhookServerTs opts world req body now st).2.1.payments = st.payments := by
  rw [webhookServerTs_hit opts world req body now st ty did e
    hparse hty hdid hvalid hdid0 hreqp hsig hrl hhit hlive]

theorem webhookBusinessS_payment_ok (opts : WebhookOptions) (world : MPWorld)
    (did : LC) (now : Nat) (st : WebhookStateS) (mp : MPPaymentResponse)
    (p : PaymentRecordS) (hdid0 : did ≠ [])
    (hfetch : world.getPayment did = .ok mp)
    (hfind : st.payments.find? (fun q => q.mercadoPagoPaymentId == did) = some p)
    (hamt : validatePaymentAmount p.amount (mp.transaction_amount.getD 0) amountTolerance = true) :
    webhookBusinessS opts world (lc "payment") did now st =
      .ok ({ st with payments := st.payments.map (fun q => if q.id == p.id then applyPaymentUpdateS q mp now else q) },
           { WebhookEffects.zero with paymentUpdates := 1, paymentCallbacks := if opts.onPaymentUpdate then 1 else 0 }) := by
  have hg2 : ¬ (lc "payment" = lc "subscription_preapproval"
      ∨ lc "payment" = lc "subscription_preapproval_plan") := by decide
  have hg3 : ¬ (lc "payment" = lc "subscription_authorized_payment"
      ∨ lc "payment" = lc "authorized_payment") := by decide
  have hskip2 : ∀ (o : WebhookOptions) (w : MPWorld) (d : LC) (n : Nat) (s : WebhookStateS),
      webhookStageSubscriptionS o w (lc "payment") d n s = .ok (s, .zero) :=
    fun o w d n s => webhookStageSubscriptionS_skip o w d n s hg2
  have hskip3 : ∀ (o : WebhookOptions) (w : MPWorld) (d : LC) (s : WebhookStateS),
      webhookStageAuthorizedS o w (lc "payment") d s = .ok (s, .zero) :=
    fun o w d s => webhookStageAuthorizedS_skip o w d s hg3
  simp [webhookBusinessS, webhookStagePaymentS, hdid0, hfetch, hfind, hamt,
    hskip2, hskip3, Bind.bind, Except.bind, pure, Except.pure,
    WebhookEffects.add_zero, WebhookEffects.zero_add]

theorem webhookBusinessS_payment_fetchFail (opts : WebhookOptions) (world : MPWorld)
    (did : LC) (now : Nat) (st : WebhookStateS) (hdid0 : did ≠ [])
    (hfetch : world.getPayment did = .error ()) :
    webhookBusinessS opts world (lc "payment") did now st = .error (lc "BAD_REQUEST") := by
  simp [webhookBusinessS, webhookStagePaymentS, hdid0, hfetch, Bind.bind, Except.bind]

theorem webhookBusinessS_payment_mismatch (opts : WebhookOptions) (world : MPWorld)
    (did : LC) (now : Nat) (st : WebhookStateS) (mp : MPPaymentResponse)
    (p : PaymentRecordS) (hdid0 : did ≠ [])
    (hfetch : world.getPayment did = .ok mp)
    (hfind : st.payments.find? (fun q => q.mercadoPagoPaymentId == did) = some p)
    (hamt : validatePaymentAmount p.amount (mp.transaction_amount.getD 0) amountTolerance = false) :
    webhookBusinessS opts world (lc "payment") did now st = .error (lc "BAD_REQUEST") := by
  simp [webhookBusinessS, webhookStagePaymentS, hdid0, hfetch, hfind, hamt,
    Bind.bind, Except.bind]

theorem webhookBusinessS_payment_norecord (opts : WebhookOptions) (world : MPWorld)
    (did : LC) (now : Nat) (st : WebhookStateS) (mp : MPPaymentResponse)
    (hdid0 : did ≠ [])
    (hfetch : world.getPayment did = .ok mp)
    (hfind : st.payments.find? (fun q => q.mercadoPagoPaymentId == did) = none) :
    webhookBusinessS opts world (lc "payment") did now st = .ok (st, .zero) := by
  have hg2 : ¬ (lc "payment" = lc "subscription_preapproval"
      ∨ lc "payment" = lc "subscription_preapproval_plan") := by decide
  have hg3 : ¬ (lc "payment" = lc "subscription_authorized_payment"
      ∨ lc "payment" = lc "authorized_payment") := by decide
  have hskip2 : ∀ (o : WebhookOptions) (w : MPWorld) (d : LC) (n : Nat) (s : WebhookStateS),
      webhookStageSubscriptionS o w (lc "payment") d n s = .ok (s, .zero) :=
    fun o w d n s => webhookStageSubscriptionS_skip o w d n s hg2
  have hskip3 : ∀ (o : WebhookOptions) (w : MPWorld) (d : LC) (s : WebhookStateS),
      webhookStageAuthorizedS o w (lc "payment") d s = .ok (s, .zero) :=
    fun o w d s => webhookStageAuthorizedS_skip o w d s hg3
  simp [webhookBusinessS, webhookStagePaymentS, hdid0, hfetch, hfind,
    hskip2, hskip3, Bind.bind, Except.bind, pure, Except.pure,
    WebhookEffects.add_zero, WebhookEffects.zero_add]

/-- Claim C1 (confirmed, server.ts handler): a `payment` webhook whose
gates pass and whose processing succeeds acknowledges with success,
performs exactly one record update and one callback invocation, and
marks the dedup key (derived from the notification data id and type)
with the 24-hour expiry; a second delivery of the same notification
within that expiry is acknowledged immediately with no update, no
callback, and no change to the payment records. -/
theorem webhookServerTs_dedup_exactly_once
    (opts : WebhookOptions) (world : MPWorld) (req : WebhookRequest) (body : WebhookBody)
    (now1 now2 : Nat) (st0 : WebhookStateS) (did : LC) (mp : MPPaymentResponse)
    (p : PaymentRecordS)
    (hparse : body.parseOk = true) (hty : body.type = some (lc "payment"))
    (hdid : body.dataId = some did) (hdid0 : did ≠ []) (hreqp : req.present = true)
    (hsig : webhookSigCheckS opts req did = .pass)
    (hrl1 : (RateLimiter.check st0.rl (lc "webhook:global") 1000 60000 now1).1 = true)
    (hfresh : alFind st0.idem (webhookDedupKeyS did (lc "payment")) = none)
    (hfetch : world.getPayment did = .ok mp)
    (hfind : st0.payments.find? (fun q => q.mercadoPagoPaymentId == did) = some p)
    (hamt : validatePaymentAmount p.amount (mp.transaction_amount.getD 0) amountTolerance = true)
    (hcb : opts.onPaymentUpdate = true)
    (hrl2 : (RateLimiter.check (webhookServerTs opts world req body now1 st0).2.1.rl
              (lc "webhook:global") 1000 60000 now2).1 = true)
    (hnow2 : now2 ≤ now1 + 86400000) :
    (webhookServerTs opts world req body now1 st0).1 = .received
    ∧ (webhookServerTs opts world req body now1 st0).2.2.paymentUpdates = 1
    ∧ (webhookServerTs opts world req body now1 st0).2.2.paymentCallbacks = 1
    ∧ alFind (webhookServerTs opts world req body now1 st0).2.1.idem
        (webhookDedupKeyS did (lc "payment")) = some (true, now1 + 86400000)
    ∧ (webhookServerTs opts world req body now2
        (webhookServerTs opts world req body now1 st0).2.1).1 = .received
    ∧ (webhookServerTs opts world req body now2
        (webhookServerTs opts world req body now1 st0).2.1).2.2 = WebhookEffects.zero
    ∧ (webhookServerTs opts world req body now2
        (webhookServerTs opts world req body now1 st0).2.1).2.1.payments
      = (webhookServerTs opts world req body now1 st0).2.1.payments := by
  have hvalid : isValidWebhookTopic (lc "payment") = true := by decide
  have hrun1 : webhookServerTs opts world req body now1 st0 =
      (.received,
       ⟨(RateLimiter.check st0.rl (lc "webhook:global") 1000 60000 now1).2,
        IdempotencyStore.set st0.idem (webhookDedupKeyS did (lc "payment")) true 86400000 now1,
        st0.payments.map (fun q => if q.id == p.id then applyPaymentUpdateS q mp now1 else q),
        st0.subscriptions⟩,
       { WebhookEffects.zero with paymentUpdates := 1, paymentCallbacks := 1 }) := by
    rw [webhookServerTs_fresh opts world req body now1 st0 (lc "payment") did
      hparse hty hdid hvalid hdid0 hreqp hsig hrl1 hfresh]
    rw [webhookBusinessS_payment_ok opts world did now1
      ⟨(RateLimiter.check st0.rl (lc "webhook:global") 1000 60000 now1).2,
       IdempotencyStore.set st0.idem (webhookDedupKeyS did (lc "payment")) true 86400000 now1,
       st0.payments, st0.subscriptions⟩ mp p hdid0 hfetch hfind hamt]
    simp [hcb]
  rw [hrun1] at hrl2
  rw [hrun1]
  have hmark : alFind
      (IdempotencyStore.set st0.idem (webhookDedupKeyS did (lc "payment")) true 86400000 now1)
      (webhookDedupKeyS did (lc "payment")) = some (true, now1 + 86400000) := by
    simp only [IdempotencyStore.set]
    exact alFind_alSet_self ..
  have hlive : ¬ (now1 + 86400000 < now2) := Nat.not_lt.mpr hnow2
  have h5 := webhookServerTs_hit_result opts world req body now2
    ⟨(RateLimiter.check st0.rl (lc "webhook:global") 1000 60000 now1).2,
     IdempotencyStore.set st0.idem (webhookDedupKeyS did (lc "payment")) true 86400000 now1,
     st0.payments.map (fun q => if q.id == p.id then applyPaymentUpdateS q mp now1 else q),
     st0.subscriptions⟩
    (lc "payment") did (now1 + 86400000)
    hparse hty hdid hvalid hdid0 hreqp hsig hrl2 hmark hlive
  have h6 := webhookServerTs_hit_effects opts world req body now2
    ⟨(RateLimiter.check st0.rl (lc "webhook:global") 1000 60000 now1).2,
     IdempotencyStore.set st0.idem (webhookDedupKeyS did (lc "payment")) true 86400000 now1,
     st0.payments.map (fun q => if q.id == p.id then applyPaymentUpdateS q mp now1 else q),
     st0.subscriptions⟩
    (lc "payment") did (now1 + 86400000)
    hparse hty hdid hvalid hdid0 hreqp hsig hrl2 hmark hlive
  have h7 := webhookServerTs_hit_payments opts world req body now2
    ⟨(RateLimiter.check st0.rl (lc "webhook:global") 1000 60000 now1).2,
     IdempotencyStore.set st0.idem (webhookDedupKeyS did (lc "payment")) true 86400000 now1,
     st0.payments.map (fun q => if q.id == p.id then applyPaymentUpdateS q mp now1 else q),
     st0.subscriptions⟩
    (lc "payment") did (now1 + 86400000)
    hparse hty hdid hvalid hdid0 hreqp hsig hrl2 hmark hlive
  exact ⟨rfl, rfl, rfl, hmark, h5, h6, h7⟩

/-- Claim C1 (witness): the exactly-once theorem at a concrete
notification, record, matching provider response and delivery times 0
and 5 milliseconds. -/
theorem webhookServerTs_dedup_exactly_once_witness :
    (worldOk100.getPayment (lc "77") = .ok mp100
     ∧ validatePaymentAmount payRec0.amount (mp100.transaction_amount.getD 0) amountTolerance = true) ∧
    ((webhookServerTs wopts0 worldOk100 wreq0 wbodyPayment 0 wst0).1 = .received
     ∧ (webhookServerTs wopts0 worldOk100 wreq0 wbodyPayment 0 wst0).2.2.paymentUpdates = 1
     ∧ (webhookServerTs wopts0 worldOk100 wreq0 wbodyPayment 0 wst0).2.2.paymentCallbacks = 1
     ∧ alFind (webhookServerTs wopts0 worldOk100 wreq0 wbodyPayment 0 wst0).2.1.idem
         (webhookDedupKeyS (lc "77") (lc "payment")) = some (true, 0 + 86400000)
     ∧ (webhookServerTs wopts0 worldOk100 wreq0 wbodyPayment 5
         (webhookServerTs wopts0 worldOk100 wreq0 wbodyPayment 0 wst0).2.1).1 = .received
     ∧ (webhookServerTs wopts0 worldOk100 wreq0 wbodyPayment 5
         (webhookServerTs wopts0 worldOk100 wreq0 wbodyPayment 0 wst0).2.1).2.2 = WebhookEffects.zero
     ∧ (webhookServerTs wopts0 worldOk100 wreq0 wbodyPayment 5
         (webhookServerTs wopts0 worldOk100 wreq0 wbodyPayment 0 wst0).2.1).2.1.payments
       = (webhookServerTs wopts0 worldOk100 wreq0 wbodyPayment 0 wst0).2.1.payments) :=
  ⟨⟨rfl, by with_unfolding_all rfl⟩,
   webhookServerTs_dedup_exactly_once wopts0 worldOk100 wreq0 wbodyPayment 0 5 wst0
     (lc "77") mp100 payRec0 rfl rfl rfl (by decide) rfl (by decide) (by decide)
     (by decide) rfl rfl (by with_unfolding_all rfl) rfl
     (by with_unfolding_all rfl) (by decide)⟩

/-- Claim C10 (confirmed, server.ts handler): once the handler marks the
dedup key for a `payment` notification, a failure of the authoritative
provider fetch does not clear the mark: the first delivery responds with
the BAD_REQUEST error, performs no state transition and no callback, yet
leaves the 24-hour mark in place, so a second delivery of the same
notification within the expiry is acknowledged with success and performs
no reprocessing. -/
theorem webhookServerTs_mark_survives_failure
    (opts : WebhookOptions) (world : MPWorld) (req : WebhookRequest) (body : WebhookBody)
    (now1 now2 : Nat) (st0 : WebhookStateS) (did : LC)
    (hparse : body.parseOk = true) (hty : body.type = some (lc "payment"))
    (hdid : body.dataId = some did) (hdid0 : did ≠ []) (hreqp : req.present = true)
    (hsig : webhookSigCheckS opts req did = .pass)
    (hrl1 : (RateLimiter.check st0.rl (lc "webhook:global") 1000 60000 now1).1 = true)
    (hfresh : alFind st0.idem (webhookDedupKeyS did (lc "payment")) = none)
    (hfetch : world.getPayment did = .error ())
    (hrl2 : (RateLimiter.check (webhookServerTs opts world req body now1 st0).2.1.rl
              (lc "webhook:global") 1000 60000 now2).1 = true)
    (hnow2 : now2 ≤ now1 + 86400000) :
    (webhookServerTs opts world req body now1 st0).1 = .apiError (lc "BAD_REQUEST")
    ∧ (webhookServerTs opts world req body now1 st0).2.2 = WebhookEffects.zero
    ∧ (webhookServerTs opts world req body now1 st0).2.1.payments = st0.payments
    ∧ alFind (webhookServerTs opts world req body now1 st0).2.1.idem
        (webhookDedupKeyS did (lc "payment")) = some (true, now1 + 86400000)
    ∧ (webhookServerTs opts world req body now2
        (webhookServerTs opts world req body now1 st0).2.1).1 = .received
    ∧ (webhookServerTs opts world req body now2
        (webhookServerTs opts world req body now1 st0).2.1).2.2 = WebhookEffects.zero
    ∧ (webhookServerTs opts world req body now2
        (webhookServerTs opts world req body now1 st0).2.1).2.1.payments
      = (webhookServerTs opts world req body now1 st0).2.1.payments := by
  have hvalid : isValidWebhookTopic (lc "payment") = true := by decide
  have hrun1 : webhookServerTs opts world req body now1 st0 =
      (.apiError (lc "BAD_REQUEST"),
       ⟨(RateLimiter.check st0.rl (lc "webhook:global") 1000 60000 now1).2,
        IdempotencyStore.set st0.idem (webhookDedupKeyS did (lc "payment")) true 86400000 now1,
        st0.payments, st0.subscriptions⟩,
       WebhookEffects.zero) := by
    rw [webhookServerTs_fresh opts world req body now1 st0 (lc "payment") did
      hparse hty hdid hvalid hdid0 hreqp hsig hrl1 hfresh]
    rw [webhookBusinessS_payment_fetchFail opts world did now1
      ⟨(RateLimiter.check st0.rl (lc "webhook:global") 1000 60000 now1).2,
       IdempotencyStore.set st0.idem (webhookDedupKeyS did (lc "payment")) true 86400000 now1,
       st0.payments, st0.subscriptions⟩ hdid0 hfetch]
  rw [hrun1] at hrl2
  rw [hrun1]
  have hmark : alFind
      (IdempotencyStore.set st0.idem (webhookDedupKeyS did (lc "payment")) true 86400000 now1)
      (webhookDedupKeyS did (lc "payment")) = some (true, now1 + 86400000) := by
    simp only [IdempotencyStore.set]
    exact alFind_alSet_self ..
  have hlive : ¬ (now1 + 86400000 < now2) := Nat.not_lt.mpr hnow2
  have h5 := webhookServerTs_hit_result opts world req body now2
    ⟨(RateLimiter.check st0.rl (lc "webhook:global") 1000 60000 now1).2,
     IdempotencyStore.set st0.idem (webhookDedupKeyS did (lc "payment")) true 86400000 now1,
     st0.payments, st0.subscriptions⟩
    (lc "payment") did (now1 + 86400000)
    hparse hty hdid hvalid hdid0 hreqp hsig hrl2 hmark hlive
  have h6 := webhookServerTs_hit_effects opts world req body now2
    ⟨(RateLimiter.check st0.rl (lc "webhook:global") 1000 60000 now1).2,
     IdempotencyStore.set st0.idem (webhookDedupKeyS did (lc "payment")) true 86400000 now1,
     st0.payments, st0.subscriptions⟩
    (lc "payment") did (now1 + 86400000)
    hparse hty hdid hvalid hdid0 hreqp hsig hrl2 hmark hlive
  have h7 := webhookServerTs_hit_payments opts world req body now2
    ⟨(RateLimiter.check st0.rl (lc "webhook:global") 1000 60000 now1).2,
     IdempotencyStore.set st0.idem (webhookDedupKeyS did (lc "payment")) true 86400000 now1,
     st0.payments, st0.subscriptions⟩
    (lc "payment") did (now1 + 86400000)
    hparse hty hdid hvalid hdid0 hreqp hsig hrl2 hmark hlive
  exact ⟨rfl, rfl, rfl, hmark, h5, h6, h7⟩

/-- Claim C10 (witness): the mark-survives-failure theorem at a concrete
notification whose provider fetch fails, delivered at times 0 and 5
milliseconds. -/
theorem webhookServerTs_mark_survives_failure_witness :
    (webhookServerTs wopts0 worldFetchFail wreq0 wbodyPayment 0 wst0).1
        = .apiError (lc "BAD_REQUEST")
    ∧ (webhookServerTs wopts0 worldFetchFail wreq0 wbodyPayment 0 wst0).2.2 = WebhookEffects.zero
    ∧ (webhookServerTs wopts0 worldFetchFail wreq0 wbodyPayment 0 wst0).2.1.payments
        = wst0.payments
    ∧ alFind (webhookServerTs wopts0 worldFetchFail wreq0 wbodyPayment 0 wst0).2.1.idem
        (webhookDedupKeyS (lc "77") (lc "payment")) = some (true, 0 + 86400000)
    ∧ (webhookServerTs wopts0 worldFetchFail wreq0 wbodyPayment 5
        (webhookServerTs wopts0 worldFetchFail wreq0 wbodyPayment 0 wst0).2.1).1 = .received
    ∧ (webhookServerTs wopts0 worldFetchFail wreq0 wbodyPayment 5
        (webhookServerTs wopts0 worldFetchFail wreq0 wbodyPayment 0 wst0).2.1).2.2
        = WebhookEffects.zero
    ∧ (webhookServerTs wopts0 worldFetchFail wreq0 wbodyPayment 5
        (webhookServerTs wopts0 worldFetchFail wreq0 wbodyPayment 0 wst0).2.1).2.1.payments
      = (webhookServerTs wopts0 worldFetchFail wreq0 wbodyPayment 0 wst0).2.1.payments :=
  webhookServerTs_mark_survives_failure wopts0 worldFetchFail wreq0 wbodyPayment 0 5 wst0
    (lc "77") rfl rfl rfl (by decide) rfl (by decide) (by decide) (by decide) rfl
    (by decide) (by decide)

/-- Claim C2 (code bug, evaluation): on a `payment` webhook whose local
record exists with amount 100 while the provider-fetched transaction
amount is 200 (beyond the 0.01 tolerance), the local record is indeed
left unmodified, but the handler responds with the BAD_REQUEST error —
the `validatePaymentAmount` failure throws an `APIError` that the catch
block rethrows — rather than the success acknowledgment the
specification describes. -/
theorem webhookServerTs_amount_mismatch_bug :
    (webhookServerTs wopts0 worldAmount200 wreq0 wbodyPayment 0 wst0).1
        = .apiError (lc "BAD_REQUEST")
    ∧ (webhookServerTs wopts0 worldAmount200 wreq0 wbodyPayment 0 wst0).2.1.payments
        = wst0.payments
    ∧ (webhookServerTs wopts0 worldAmount200 wreq0 wbodyPayment 0 wst0).2.2
        = WebhookEffects.zero :=
  ⟨by with_unfolding_all rfl, by with_unfolding_all rfl, by with_unfolding_all rfl⟩

/-- Claim C3 (code bug, evaluation): on a `payment` webhook that passes
rate limiting, payload validation and signature verification but whose
authoritative provider fetch fails, the handler responds with the
BAD_REQUEST error — the thrown `APIError` is rethrown by the catch block
— rather than the success acknowledgment the specification describes;
no record is updated and no callback runs. -/
theorem webhookServerTs_fetch_failure_bug :
    (webhookServerTs wopts0 worldFetchFail wreq0 wbodyPayment 0 wst0).1
        = .apiError (lc "BAD_REQUEST")
    ∧ (webhookServerTs wopts0 worldFetchFail wreq0 wbodyPayment 0 wst0).2.1.payments
        = wst0.payments
    ∧ (webhookServerTs wopts0 worldFetchFail wreq0 wbodyPayment 0 wst0).2.2
        = WebhookEffects.zero :=
  ⟨by with_unfolding_all rfl, by with_unfolding_all rfl, by with_unfolding_all rfl⟩

/-- Claim C6 (counterexample): the server.ts creation flow sends the
provider preference request with no `external_reference` at all — the
one captured preference body has `external_reference = none` even
though the call succeeds and persists a payment record (the server.ts
payment schema has no `externalReference` column; correlation uses the
preference id instead). -/
theorem createPaymentServerTs_no_external_reference_cex :
    (createPaymentServerTs cenvS0 cbodyS0 cstS0).2.2.prefCalls.map
        (fun b => b.external_reference) = [none]
    ∧ (createPaymentServerTs cenvS0 cbodyS0 cstS0).2.2.paymentsCreated = 1 :=
  ⟨by with_unfolding_all rfl, by with_unfolding_all rfl⟩

/-- Claim C6 (corrected, external-reference variant): that creation
handler generates the `externalReference` (its one `generateId()` call)
before the provider preference call, sends it with the single preference
request, and persists it on the returned pending payment record, which
is appended to the stored payment rows. -/
theorem createPaymentExtRef_external_reference (env : CreateEnvX) (body : CreateBodyX)
    (st : CreateStateX) (pref : MPPreferenceResp)
    (hrl : (RateLimiter.check st.rl (lc "payment:create:" ++ env.sessionUserId)
              10 60000 env.now).1 = true)
    (hkey : body.idempotencyKey = none)
    (hcur : body.items.any (fun it => ValidationRules.currency it.currencyId = false) = false)
    (hamt : ValidationRules.amount (totalAmountOf body.items) = true)
    (hpref : ∀ b, env.createPreference b = .ok pref) :
    (createPaymentExtRef env body st).2.2.prefCalls.map
        (fun b => b.external_reference) = [some (env.genId 0)]
    ∧ ∃ r, (createPaymentExtRef env body st).1 = .ok r
        ∧ r.payment.externalReference = env.genId 0
        ∧ r.payment.status = lc "pending"
        ∧ (createPaymentExtRef env body st).2.1.payments = st.payments ++ [r.payment] := by
  simp only [createPaymentExtRef, hrl, hkey, createPaymentAfterIdemX, hcur, hamt, hpref,
    Bool.true_eq_false, Bool.false_eq_true, if_false, ite_false, if_true, ite_true]
  exact ⟨rfl, _, rfl, rfl, rfl, rfl⟩

/-- Claim C6 (witness): the corrected theorem at a one-item request in
the successful concrete environment. -/
theorem createPaymentExtRef_external_reference_witness :
    (createPaymentExtRef cenvX0 cbodyX0 cstX0).2.2.prefCalls.map
        (fun b => b.external_reference) = [some (cenvX0.genId 0)]
    ∧ ∃ r, (createPaymentExtRef cenvX0 cbodyX0 cstX0).1 = .ok r
        ∧ r.payment.externalReference = cenvX0.genId 0
        ∧ r.payment.status = lc "pending"
        ∧ (createPaymentExtRef cenvX0 cbodyX0 cstX0).2.1.payments
            = cstX0.payments ++ [r.payment] :=
  createPaymentExtRef_external_reference cenvX0 cbodyX0 cstX0 mpPref0
    (by decide) rfl (by decide) (by with_unfolding_all rfl) (fun _ => rfl)

/-- Claim C9 (confirmed, server.ts handler): when the provider
preference-creation call is rejected, the creation endpoint surfaces the
translated `APIError` of `handleMercadoPagoError` and persists no
payment record: the payment-create counter stays zero and the stored
payments and idempotency cache are unchanged. -/
theorem createPaymentServerTs_provider_failure (env : CreateEnvS) (body : CreateBodyS)
    (st : CreateStateS) (err : MPRawError) (c : CustomerRecord)
    (hrl : (RateLimiter.check st.rl (lc "payment:create:" ++ env.sessionUserId)
              10 60000 env.now).1 = true)
    (hkey : body.idempotencyKey = none)
    (horig : env.trustedOrigins = none)
    (hcur : body.items.any (fun it => ValidationRules.currency it.currencyId = false) = false)
    (hcust : st.customers.find? (fun q => q.userId == env.sessionUserId) = some c)
    (hamt : ValidationRules.amount (totalAmountOf body.items) = true)
    (hmkt : body.marketplace = none)
    (hfail : ∀ b, env.createPreference b = .error err) :
    (createPaymentServerTs env body st).1 = .apiError (handleMercadoPagoError err)
    ∧ (createPaymentServerTs env body st).2.2.paymentsCreated = 0
    ∧ (createPaymentServerTs env body st).2.1.payments = st.payments
    ∧ (createPaymentServerTs env body st).2.1.idem = st.idem := by
  simp only [createPaymentServerTs, hrl, hkey, createPaymentAfterIdemS, horig, hcur, hcust,
    hamt, hmkt, hfail, Bool.true_eq_false, Bool.false_eq_true, if_false, ite_false,
    if_true, ite_true, Option.isSome_none]
  simp [CreateEffects.zero]

/-- Claim C9 (witness): the provider-failure theorem at a one-item
request in the rejecting concrete environment, with the customer row
already present. -/
theorem createPaymentServerTs_provider_failure_witness :
    (createPaymentServerTs cenvSFail cbodyS0 cstS1).1
        = .apiError (handleMercadoPagoError mpe400)
    ∧ (createPaymentServerTs cenvSFail cbodyS0 cstS1).2.2.paymentsCreated = 0
    ∧ (createPaymentServerTs cenvSFail cbodyS0 cstS1).2.1.payments = cstS1.payments
    ∧ (createPaymentServerTs cenvSFail cbodyS0 cstS1).2.1.idem = cstS1.idem :=
  createPaymentServerTs_provider_failure cenvSFail cbodyS0 cstS1 mpe400 custRec0
    (by decide) rfl rfl (by decide) rfl (by with_unfolding_all rfl) rfl
    (fun _ => rfl)
